import Mathlib

/-!
Verification development for the Labour Management System backend.

The definitions below are a shallow embedding of the Express/Mongoose
controllers in `src/controllers` and the schemas in `src/models`:

* Mongo ObjectIds are strings; `isValidObjectId` mirrors
  `mongoose.Types.ObjectId.isValid` on strings (24 hex characters, or any
  12-character string).
* JavaScript `Date` values are modelled post-parse as `Option Int`
  (milliseconds since epoch); `none` stands for `Invalid Date`, i.e. the
  value on which `isNaN(new Date(s))` is true.  Query / body fields that may
  be absent are wrapped in a further `Option`.
* The document store is a plain list of records; `find` with a filter object
  becomes `List.filter` with a boolean predicate, `findById` becomes
  `List.find?` on the id field, `save` becomes a pointwise `List.map`
  replacement, and `findByIdAndDelete` becomes `List.filter`.
* Fallibility of individual inserts (schema validation, duplicate keys) is
  abstracted by an oracle `insertOk : record -> Option String` returning
  `none` on success and an error message on failure, so that the two batch
  insert modes (`insertMany` with default ordered semantics, and
  `insertMany {ordered:false}`) can be modelled faithfully.
* Stateful endpoints return `Except ApiError result × newState`; on the
  error paths the state is returned unchanged, matching the controllers,
  except where a partially performed batch insert has committed a prefix.
-/

namespace LMS

/-- Modelled from the spec: the `ApiError` utility (`src/utils/error.js`) is
not among the provided sources; the spec (§7) describes errors as an HTTP
status code plus a human-readable message. -/
structure ApiError where
  status : Nat
  message : String
deriving Repr, DecidableEq

/-- Mongo object identifiers are modelled as strings. -/
abbrev OId := String

/-- Shallow embedding of `mongoose.Types.ObjectId.isValid` on strings: a
24-character hex string, or any 12-character string. -/
def isValidObjectId (s : String) : Bool :=
  (s.length == 24 && s.toList.all (fun c =>
    c.isDigit || ('a' ≤ c && c ≤ 'f') || ('A' ≤ c && c ≤ 'F'))) ||
  s.length == 12

/-- Result of parsing a date string: `none` models `Invalid Date`. -/
abbrev JsDate := Option Int

/-- Result of `parseInt(x, 10)`: `none` models `NaN`. -/
abbrev JsNum := Option Int

/-- Salary document (`src/models/salary.model.js`).  The controllers also
read and write a `paymentDate` path (create, list filter, mark-as-paid), so
the document model carries it as an optional field; the schema, however,
declares no such path, so under the default strict mode those writes are
discarded and stored documents never gain the field. -/
structure SalaryRec where
  id : OId
  labourerId : OId
  startPeriod : Int
  endPeriod : Int
  totalDaysPresent : Int
  dailyWage : Int
  totalSalary : Int
  status : String
  payslipUrl : String
  paymentDate : Option Int
deriving Repr, DecidableEq

/-- Attendance document (`src/models/attendance.model.js`). -/
structure AttendanceRec where
  id : OId
  labourerId : OId
  projectId : OId
  date : Int
  shift : String
  status : String
  markedBy : Option OId
deriving Repr, DecidableEq

/-- Leave document (`src/models/leave.model.js`). -/
structure LeaveRec where
  id : OId
  labourerId : OId
  fromDate : Int
  toDate : Int
  reason : String
  status : String
  appliedOn : Int
  reviewedBy : Option OId
  remarks : Option String
deriving Repr, DecidableEq

/-- Pagination coercion for `page`:
`page = parseInt(page, 10) > 0 ? parseInt(page, 10) : 1` with destructuring
default `1` when the query parameter is absent. -/
def coercePage (p : Option JsNum) : Int :=
  match p with
  | some (some v) => if 0 < v then v else 1
  | _ => 1

/-- Pagination coercion for `limit`, defaulting to 20. -/
def coerceLimit (l : Option JsNum) : Int :=
  match l with
  | some (some v) => if 0 < v then v else 20
  | _ => 20

/-- Integer ceiling division; equals `Math.ceil(a / b)` for `b > 0`. -/
def ceilDiv (a b : Nat) : Nat := (a + b - 1) / b

/-- Sort comparator for `.sort(\x7b startPeriod: -1, endPeriod: -1 \x7d)`
(latest periods first). -/
def salaryDescLe (a b : SalaryRec) : Bool :=
  decide (b.startPeriod < a.startPeriod) ||
  (a.startPeriod == b.startPeriod && decide (b.endPeriod ≤ a.endPeriod))

/-- Records sorted latest period first. -/
def sortSalaries (l : List SalaryRec) : List SalaryRec :=
  l.mergeSort salaryDescLe

/-- Query parameters accepted by `listSalaryRecords`. -/
structure SalaryListQuery where
  labourerId : Option String
  status : Option String
  startPeriod : Option JsDate
  endPeriod : Option JsDate
  paymentDate : Option JsDate
  page : Option JsNum
  limit : Option JsNum
deriving Repr

/-- Filter object built by `listSalaryRecords`; each field is one clause of
the Mongo query (absent clause = no constraint). -/
structure SalaryFilters where
  labourerId : Option OId
  status : Option String
  periodGte : Option Int
  periodLte : Option Int
  payGte : Option Int
  payLte : Option Int
deriving Repr, DecidableEq

/-- Milliseconds per day, for the single-day `paymentDate` window. -/
def dayMs : Int := 86400000

/-- Start of the civil day containing `t` (`setHours(0,0,0,0)`), with the
day boundary taken at multiples of `dayMs`. -/
def startOfDay (t : Int) : Int := t - t % dayMs

/-- End of the civil day containing `t` (`setHours(23,59,59,999)`). -/
def endOfDay (t : Int) : Int := startOfDay t + (dayMs - 1)

/-- Evaluation of the salary filter object on one document.  A `$gte/$lte`
comparison against the absent `paymentDate` path matches nothing. -/
def matchesSalaryFilters (f : SalaryFilters) (r : SalaryRec) : Bool :=
  (f.labourerId.all (fun v => v == r.labourerId)) &&
  (f.status.all (fun v => v == r.status)) &&
  (f.periodGte.all (fun v => decide (v ≤ r.endPeriod))) &&
  (f.periodLte.all (fun v => decide (r.startPeriod ≤ v))) &&
  (f.payGte.all (fun v => match r.paymentDate with
    | some d => decide (v ≤ d)
    | none => false)) &&
  (f.payLte.all (fun v => match r.paymentDate with
    | some d => decide (d ≤ v)
    | none => false))

/-- Filter construction in `listSalaryRecords` (salary.controller.js
205-243): an invalid `labourerId` and unparseable dates are silently
dropped; only an out-of-enum `status` fails the request.  The `$and` array
of the source collapses to the two independent optional period bounds. -/
def buildSalaryFilters (q : SalaryListQuery) : Except ApiError SalaryFilters :=
  let flab : Option OId :=
    match q.labourerId with
    | some s => if isValidObjectId s then some s else none
    | none => none
  let pGte : Option Int := match q.startPeriod with
    | some (some d) => some d
    | _ => none
  let pLte : Option Int := match q.endPeriod with
    | some (some d) => some d
    | _ => none
  let pay : Option Int × Option Int := match q.paymentDate with
    | some (some d) => (some (startOfDay d), some (endOfDay d))
    | _ => (none, none)
  match q.status with
  | some s =>
    if s == "pending" || s == "paid" then
      .ok ⟨flab, some s, pGte, pLte, pay.1, pay.2⟩
    else
      .error ⟨400, "Status must be pending or paid"⟩
  | none => .ok ⟨flab, none, pGte, pLte, pay.1, pay.2⟩

/-- Pagination metadata returned by every list endpoint. -/
structure ListMeta where
  total : Nat
  totalPages : Nat
  currentPage : Int
  pageSize : Nat
deriving Repr, DecidableEq

/-- Response of `listSalaryRecords`. -/
structure SalaryListResp where
  meta : ListMeta
  records : List SalaryRec
deriving Repr, DecidableEq

/-- Embedding of `listSalaryRecords` (salary.controller.js 189-264). -/
def listSalaryRecords (q : SalaryListQuery) (db : List SalaryRec) :
    Except ApiError SalaryListResp :=
  let page := coercePage q.page
  let limit := coerceLimit q.limit
  let skip := ((page - 1) * limit).toNat
  (buildSalaryFilters q).map (fun f =>
    let matching := db.filter (matchesSalaryFilters f)
    let total := matching.length
    let records := ((sortSalaries matching).drop skip).take limit.toNat
    { meta := { total := total, totalPages := ceilDiv total limit.toNat,
                currentPage := page, pageSize := records.length },
      records := records })

/-- Query parameters accepted by `getAttendanceByLabourer` (the labourer id
itself arrives as a path parameter). -/
structure AttListQuery where
  projectId : Option String
  status : Option String
  shift : Option String
  markedBy : Option String
  startDate : Option JsDate
  endDate : Option JsDate
  page : Option JsNum
  limit : Option JsNum
deriving Repr

/-- Filter object built by `getAttendanceByLabourer`.  `dateClause`
mirrors the `filters.date` object of the source: `none` when neither date
parameter was supplied, and otherwise the pair of the bounds that parsed —
the source assigns `filters.date` an object whenever `startDate || endDate`
is truthy and, unlike the `$and`-style endpoints, never deletes it when it
stays empty. -/
structure AttFilters where
  labourerId : OId
  projectId : Option OId
  status : Option String
  shift : Option String
  markedBy : Option OId
  dateClause : Option (Option Int × Option Int)
deriving Repr, DecidableEq

/-- Filter construction in `getAttendanceByLabourer` (attendance
controller 244-265): every optional identifier and enum criterion is
silently dropped when invalid, and an unparseable date bound contributes
nothing to the date clause — but the clause object itself is kept whenever
some date parameter was supplied. -/
def buildAttByLabourerFilters (labourerId : OId) (q : AttListQuery) :
    AttFilters :=
  { labourerId := labourerId
    projectId := match q.projectId with
      | some s => if isValidObjectId s then some s else none
      | none => none
    status := match q.status with
      | some s => if ["present", "absent", "half-day"].contains s then some s
                  else none
      | none => none
    shift := match q.shift with
      | some s => if ["morning", "evening", "night"].contains s then some s
                  else none
      | none => none
    markedBy := match q.markedBy with
      | some s => if isValidObjectId s then some s else none
      | none => none
    dateClause :=
      if q.startDate.isSome || q.endDate.isSome then
        some ((match q.startDate with
                | some (some d) => some d
                | _ => none),
              (match q.endDate with
                | some (some d) => some d
                | _ => none))
      else none }

/-- Evaluation of the attendance filter object on one document.  A date
clause with neither bound is never evaluated: the query containing it
fails Date casting before matching (see `getAttendanceByLabourer`). -/
def matchesAttFilters (f : AttFilters) (r : AttendanceRec) : Bool :=
  (f.labourerId == r.labourerId) &&
  (f.projectId.all (fun v => v == r.projectId)) &&
  (f.status.all (fun v => v == r.status)) &&
  (f.shift.all (fun v => v == r.shift)) &&
  (f.markedBy.all (fun v => match r.markedBy with
    | some m => v == m
    | none => false)) &&
  (match f.dateClause with
   | none => true
   | some (g, l) =>
     (g.all (fun v => decide (v ≤ r.date))) &&
     (l.all (fun v => decide (r.date ≤ v))))

/-- Records sorted by date, most recent first (`.sort(\x7b date: -1 \x7d)`). -/
def sortAttendance (l : List AttendanceRec) : List AttendanceRec :=
  l.mergeSort (fun a b => decide (b.date ≤ a.date))

/-- Response of the attendance list endpoints. -/
structure AttListResp where
  meta : ListMeta
  records : List AttendanceRec
deriving Repr, DecidableEq

/-- Embedding of `getAttendanceByLabourer` (attendance controller
220-288): only the path parameter is validated strictly.  When date
parameters were supplied but no bound parsed, the query keeps the empty
`date` clause; an empty object carries no query operator, so the Mongoose
Date cast of the first query (`countDocuments`) rejects, and the rejection
surfaces through the error middleware as a 500-class persistence failure
(spec §7) rather than an InvalidDate validation error. -/
def getAttendanceByLabourer (labourerId : String) (q : AttListQuery)
    (db : List AttendanceRec) : Except ApiError AttListResp :=
  if ¬ isValidObjectId labourerId then
    .error ⟨400, "Invalid labourer ID"⟩
  else
    let page := coercePage q.page
    let limit := coerceLimit q.limit
    let skip := ((page - 1) * limit).toNat
    let f := buildAttByLabourerFilters labourerId q
    if f.dateClause = some (none, none) then
      .error ⟨500, "Cast to date failed for value at path date"⟩
    else
      let matching := db.filter (matchesAttFilters f)
      let records := ((sortAttendance matching).drop skip).take limit.toNat
      .ok { meta := { total := matching.length,
                      totalPages := ceilDiv matching.length limit.toNat,
                      currentPage := page, pageSize := records.length },
            records := records }

/-- Query parameters accepted by `listLeaveRequests`. -/
structure LeaveListQuery where
  labourerId : Option String
  status : Option String
  fromDate : Option JsDate
  toDate : Option JsDate
  reviewedBy : Option String
  page : Option JsNum
  limit : Option JsNum
deriving Repr

/-- Filter object built by `listLeaveRequests`. -/
structure LeaveFilters where
  labourerId : Option OId
  status : Option String
  windowGte : Option Int
  windowLte : Option Int
  reviewedBy : Option OId
deriving Repr, DecidableEq

/-- Filter construction in `listLeaveRequests` (leave controller 214-239);
all invalid optional criteria are silently dropped, and the `$and` array of
the period-overlap clause collapses to the two independent bounds. -/
def buildLeaveFilters (q : LeaveListQuery) : LeaveFilters :=
  { labourerId := match q.labourerId with
      | some s => if isValidObjectId s then some s else none
      | none => none
    status := match q.status with
      | some s => if ["pending", "approved", "rejected"].contains s then some s
                  else none
      | none => none
    windowGte := match q.fromDate with
      | some (some d) => some d
      | _ => none
    windowLte := match q.toDate with
      | some (some d) => some d
      | _ => none
    reviewedBy := match q.reviewedBy with
      | some s => if isValidObjectId s then some s else none
      | none => none }

/-- Evaluation of the leave filter object on one document: the window
clause keeps a leave whose `[fromDate, toDate]` interval overlaps the
queried window. -/
def matchesLeaveFilters (f : LeaveFilters) (r : LeaveRec) : Bool :=
  (f.labourerId.all (fun v => v == r.labourerId)) &&
  (f.status.all (fun v => v == r.status)) &&
  (f.windowGte.all (fun v => decide (v ≤ r.toDate))) &&
  (f.windowLte.all (fun v => decide (r.fromDate ≤ v))) &&
  (f.reviewedBy.all (fun v => match r.reviewedBy with
    | some m => v == m
    | none => false))

/-- Leaves sorted most recent first (`.sort(\x7b fromDate: -1 \x7d)`). -/
def sortLeaves (l : List LeaveRec) : List LeaveRec :=
  l.mergeSort (fun a b => decide (b.fromDate ≤ a.fromDate))

/-- Response of `listLeaveRequests`. -/
structure LeaveListResp where
  meta : ListMeta
  records : List LeaveRec
deriving Repr, DecidableEq

/-- Embedding of `listLeaveRequests` (leave controller 198-261); this
endpoint has no failing path. -/
def listLeaveRequests (q : LeaveListQuery) (db : List LeaveRec) :
    LeaveListResp :=
  let page := coercePage q.page
  let limit := coerceLimit q.limit
  let skip := ((page - 1) * limit).toNat
  let f := buildLeaveFilters q
  let matching := db.filter (matchesLeaveFilters f)
  let records := ((sortLeaves matching).drop skip).take limit.toNat
  { meta := { total := matching.length,
              totalPages := ceilDiv matching.length limit.toNat,
              currentPage := page, pageSize := records.length },
    records := records }

/-- Attendance records in `[s, e]` with status `present` — the `$match`
stage of the aggregation in `generateSalaryForPeriod`. -/
def presentInPeriod (s e : Int) (db : List AttendanceRec) :
    List AttendanceRec :=
  db.filter (fun r =>
    decide (s ≤ r.date) && decide (r.date ≤ e) && r.status == "present")

/-- The `$group \x7b _id: labourerId, totalDaysPresent: \x7b $sum: 1 \x7d \x7d`
stage: one output pair per distinct labourer, with the number of matching
records for that labourer. -/
def attendanceAggregation (s e : Int) (db : List AttendanceRec) :
    List (OId × Nat) :=
  let recs := presentInPeriod s e db
  ((recs.map (fun r => r.labourerId)).dedup).map
    (fun labId => (labId, recs.countP (fun r => r.labourerId == labId)))

/-- Salary record synthesized for one labourer by the generation step
(salary.controller.js 553-562).  The store-assigned document id is not
relevant to the generation semantics and is left empty. -/
def mkPendingSalary (s e w : Int) (labId : OId) (cnt : Nat) : SalaryRec :=
  { id := "", labourerId := labId, startPeriod := s, endPeriod := e,
    totalDaysPresent := (cnt : Int), dailyWage := w,
    totalSalary := (cnt : Int) * w, status := "pending", payslipUrl := "",
    paymentDate := none }

/-- Labourers among `labourerIds` that already own a salary record with
exactly the period `[s, e]` (salary.controller.js 542-548). -/
def salaryExistingIds (s e : Int) (labourerIds : List OId)
    (salDb : List SalaryRec) : List OId :=
  (salDb.filter (fun r =>
    labourerIds.contains r.labourerId &&
    r.startPeriod == s && r.endPeriod == e)).map (fun r => r.labourerId)

/-- Batch of salary records the generation call will try to insert: one per
aggregated labourer that has no existing record for the period. -/
def salaryToCreate (s e w : Int) (attDb : List AttendanceRec)
    (salDb : List SalaryRec) : List SalaryRec :=
  let agg := attendanceAggregation s e attDb
  let existing := salaryExistingIds s e (agg.map Prod.fst) salDb
  (agg.filter (fun p => ! existing.contains p.1)).map
    (fun p => mkPendingSalary s e w p.1 p.2)

/-- Mongoose `insertMany` with its default ordered semantics: documents are
inserted in order and the first failure aborts the rest of the batch; the
documents inserted before the failure stay committed and the error is
thrown.  Returns the committed prefix and the first error, if any. -/
def insertManyOrdered (insertOk : SalaryRec → Option String) :
    List SalaryRec → List SalaryRec × Option String
  | [] => ([], none)
  | r :: rs =>
    match insertOk r with
    | some msg => ([], some msg)
    | none =>
      let rest := insertManyOrdered insertOk rs
      (r :: rest.1, rest.2)

/-- Response of `generateSalaryForPeriod`. -/
structure GenSalaryResp where
  statusCode : Nat
  message : String
  generatedSalaries : List SalaryRec
deriving Repr, DecidableEq

/-- Embedding of `generateSalaryForPeriod` (salary.controller.js 494-578).
Body fields are modelled post-parse: a `JsDate` of `none` is an unparseable
date string; an absent field is the outer `none`.  An uncaught batch-insert
failure propagates through `catchAsyncHandler` to the error middleware as a
500-class error; the documents inserted before the failure remain. -/
def generateSalaryForPeriod (startPeriod endPeriod : Option JsDate)
    (dailyWage : Option Int) (insertOk : SalaryRec → Option String)
    (attDb : List AttendanceRec) (salDb : List SalaryRec) :
    Except ApiError GenSalaryResp × List SalaryRec :=
  match startPeriod, endPeriod, dailyWage with
  | some sd, some ed, some w =>
    match sd, ed with
    | some s, some e =>
      if e < s then
        (.error ⟨400, "startPeriod cannot be after endPeriod"⟩, salDb)
      else if w < 0 then
        (.error ⟨400, "dailyWage must be a positive number"⟩, salDb)
      else
        let agg := attendanceAggregation s e attDb
        if agg.isEmpty then
          (.ok ⟨200,
            "No attendance records found for the given period to generate salary.",
            []⟩, salDb)
        else
          let toCreate := salaryToCreate s e w attDb salDb
          if toCreate.isEmpty then
            (.ok ⟨200,
              "Salary records for this period already generated for all labourers.",
              []⟩, salDb)
          else
            let result := insertManyOrdered insertOk toCreate
            match result.2 with
            | some msg => (.error ⟨500, msg⟩, salDb ++ result.1)
            | none =>
              (.ok ⟨201,
                "Generated salary records for " ++ toString result.1.length
                  ++ " labourers", result.1⟩, salDb ++ result.1)
    | _, _ =>
      (.error ⟨400, "Invalid startPeriod or endPeriod date format"⟩, salDb)
  | _, _, _ =>
    (.error ⟨400, "startPeriod, endPeriod, and dailyWage are required"⟩,
     salDb)

/-- Raw candidate entry of a bulk attendance upload, before validation.
Each field may be absent; the date additionally may be an unparseable
string (`some none`). -/
structure BulkEntry where
  labourerId : Option String
  projectId : Option String
  date : Option JsDate
  shift : Option String
  status : Option String
  markedBy : Option String
deriving Repr, DecidableEq

/-- Per-entry validation of `bulkAddAttendance` (attendance controller
639-683): the checks run in source order and a later failing check
overwrites the error message; `none` means the entry is valid. -/
def bulkEntryError (entry : BulkEntry) : Option String :=
  let e1 : Option String :=
    if (match entry.labourerId with
        | some s => isValidObjectId s
        | none => false) then none
    else some "Missing/invalid labourerId"
  let e2 :=
    if (match entry.projectId with
        | some s => isValidObjectId s
        | none => false) then e1
    else some "Missing/invalid projectId"
  let e3 :=
    if (match entry.date with
        | some (some _) => true
        | _ => false) then e2
    else some "Missing/invalid date"
  let e4 :=
    if (match entry.shift with
        | some s => ["morning", "evening", "night"].contains s
        | none => false) then e3
    else some "Missing/invalid shift"
  let e5 :=
    if (match entry.status with
        | some s => ["present", "absent", "half-day"].contains s
        | none => false) then e4
    else some "Missing/invalid status"
  if (match entry.markedBy with
      | some m => ! isValidObjectId m
      | none => false) then some "Invalid markedBy"
  else e5

/-- Conversion of a validated entry into an attendance document; the
defaults never fire on an entry accepted by `bulkEntryError`. -/
def bulkEntryToRecord (entry : BulkEntry) : AttendanceRec :=
  { id := "", labourerId := entry.labourerId.getD "",
    projectId := entry.projectId.getD "",
    date := (match entry.date with | some (some d) => d | _ => 0),
    shift := entry.shift.getD "", status := entry.status.getD "",
    markedBy := entry.markedBy }

/-- A failed record as reported by the bulk endpoint: a pre-validation
failure carries the raw entry, a post-insert failure carries the document
recovered from the valid batch at the write-error index. -/
inductive BulkFailedPayload where
  | raw (entry : BulkEntry)
  | doc (record : AttendanceRec)
deriving Repr, DecidableEq

/-- One element of the merged failure report. -/
structure BulkFailure where
  idx : Nat
  error : String
  record : BulkFailedPayload
deriving Repr, DecidableEq

/-- Validation failures with their 0-based index into the input array. -/
def bulkValidationFailures (entries : List BulkEntry) : List BulkFailure :=
  entries.enum.filterMap (fun p =>
    (bulkEntryError p.2).map (fun msg => ⟨p.1, msg, .raw p.2⟩))

/-- The valid subset of the input, converted to documents, in input order. -/
def bulkValidRecords (entries : List BulkEntry) : List AttendanceRec :=
  entries.filterMap (fun entry =>
    match bulkEntryError entry with
    | none => some (bulkEntryToRecord entry)
    | some _ => none)

/-- Mongoose `insertMany` with `ordered: false`: every document is
attempted, failures do not abort the batch, and each failure is reported as
a write error carrying its index into the submitted batch (the failing
document itself is `batch[index]`). -/
def insertManyUnordered (insertOk : AttendanceRec → Option String)
    (start : Nat) :
    List AttendanceRec →
      List AttendanceRec × List (Nat × String × AttendanceRec)
  | [] => ([], [])
  | r :: rs =>
    let rest := insertManyUnordered insertOk (start + 1) rs
    match insertOk r with
    | none => (r :: rest.1, rest.2)
    | some msg => (rest.1, (start, msg, r) :: rest.2)

/-- Response of `bulkAddAttendance`. -/
structure BulkResp where
  message : String
  insertedCount : Nat
  failedCount : Nat
  failedRecords : List BulkFailure
deriving Repr, DecidableEq

/-- Embedding of `bulkAddAttendance` (attendance controller 625-726).  The
source builds the valid list and the error list in one pass over the input;
here they are the two projections `bulkValidRecords` and
`bulkValidationFailures` of the same pass. -/
def bulkAddAttendance (insertOk : AttendanceRec → Option String)
    (entries : List BulkEntry) (attDb : List AttendanceRec) :
    Except ApiError BulkResp × List AttendanceRec :=
  if entries.isEmpty then
    (.error ⟨400, "attendanceRecords must be a non-empty array"⟩, attDb)
  else
    let valErrors := bulkValidationFailures entries
    let validRecords := bulkValidRecords entries
    if validRecords.isEmpty then
      (.error ⟨400,
        "No valid attendance records to add. " ++ toString valErrors.length
          ++ " failed validation."⟩, attDb)
    else
      let ins := insertManyUnordered insertOk 0 validRecords
      let failed := valErrors ++
        ins.2.map (fun t => ⟨t.1, t.2.1, .doc t.2.2⟩)
      (.ok { message := "Bulk attendance insert complete",
             insertedCount := ins.1.length,
             failedCount := failed.length,
             failedRecords := failed }, attDb ++ ins.1)

/-- Fixed-shape attendance summary (attendance controller 524-540). -/
structure AttSummary where
  present : Nat
  absent : Nat
  halfDay : Nat
  totalRecords : Nat
deriving Repr, DecidableEq

/-- The `$group \x7b _id: status, count: \x7b $sum: 1 \x7d \x7d` stage: one
output pair per distinct status value occurring in the records. -/
def statusAggregation (recs : List AttendanceRec) : List (String × Nat) :=
  ((recs.map (fun r => r.status)).dedup).map
    (fun s => (s, recs.countP (fun r => r.status == s)))

/-- One step of the `forEach` that copies aggregation groups into the
fixed-shape summary. -/
def summaryStep (acc : AttSummary) (p : String × Nat) : AttSummary :=
  if p.1 == "present" then { acc with present := p.2 }
  else if p.1 == "absent" then { acc with absent := p.2 }
  else if p.1 == "half-day" then { acc with halfDay := p.2 }
  else acc

/-- Summary construction shared verbatim by the labourer and project
summary endpoints: all counters start at 0, groups are copied in, and
`totalRecords` is the `reduce` over the group counts. -/
def summarize (recs : List AttendanceRec) : AttSummary :=
  let agg := statusAggregation recs
  let base := agg.foldl summaryStep ⟨0, 0, 0, 0⟩
  { base with totalRecords := agg.foldl (fun acc p => acc + p.2) 0 }

/-- The `$match` condition of the labourer summary aggregation. -/
def labourerSummaryMatch (labourerId : OId) (dGte dLte : Option Int)
    (r : AttendanceRec) : Bool :=
  (labourerId == r.labourerId) &&
  (dGte.all (fun v => decide (v ≤ r.date))) &&
  (dLte.all (fun v => decide (r.date ≤ v)))

/-- Embedding of `getLabourerAttendanceSummary` (attendance controller
478-550); this endpoint rejects unparseable dates. -/
def getLabourerAttendanceSummary (labourerId : String)
    (startDate endDate : Option JsDate) (db : List AttendanceRec) :
    Except ApiError AttSummary :=
  if ¬ isValidObjectId labourerId then
    .error ⟨400, "Invalid labourer ID"⟩
  else
    match startDate, endDate with
    | some none, _ => .error ⟨400, "Invalid startDate"⟩
    | _, some none => .error ⟨400, "Invalid endDate"⟩
    | sd, ed =>
      let dGte : Option Int := match sd with
        | some (some d) => some d
        | _ => none
      let dLte : Option Int := match ed with
        | some (some d) => some d
        | _ => none
      .ok (summarize (db.filter (labourerSummaryMatch labourerId dGte dLte)))

/-- The `$match` condition of the project summary aggregation. -/
def projectSummaryMatch (projectId : OId) (dGte dLte : Option Int)
    (r : AttendanceRec) : Bool :=
  (projectId == r.projectId) &&
  (dGte.all (fun v => decide (v ≤ r.date))) &&
  (dLte.all (fun v => decide (r.date ≤ v)))

/-- Embedding of `getProjectAttendanceSummary` (attendance controller
552-622). -/
def getProjectAttendanceSummary (projectId : String)
    (startDate endDate : Option JsDate) (db : List AttendanceRec) :
    Except ApiError AttSummary :=
  if ¬ isValidObjectId projectId then
    .error ⟨400, "Invalid project ID"⟩
  else
    match startDate, endDate with
    | some none, _ => .error ⟨400, "Invalid startDate"⟩
    | _, some none => .error ⟨400, "Invalid endDate"⟩
    | sd, ed =>
      let dGte : Option Int := match sd with
        | some (some d) => some d
        | _ => none
      let dLte : Option Int := match ed with
        | some (some d) => some d
        | _ => none
      .ok (summarize (db.filter (projectSummaryMatch projectId dGte dLte)))

/-- Body of `markAttendance`.  The date is modelled post-parse (`none` =
field absent); `markAttendance` itself never date-validates the parse. -/
structure MarkAttendanceInput where
  labourerId : String
  projectId : String
  date : Option Int
  shift : String
  status : String
  markedBy : Option String
deriving Repr, DecidableEq

/-- The duplicate-key predicate of the attendance invariant: same labourer,
project, date and shift. -/
def sameAttendanceKey (labId projId : OId) (d : Int) (shift : String)
    (r : AttendanceRec) : Bool :=
  r.labourerId == labId && r.projectId == projId && r.date == d &&
  r.shift == shift

/-- Embedding of `markAttendance` (attendance controller 7-58).  `freshId`
is the document id the store assigns on create. -/
def markAttendance (inp : MarkAttendanceInput) (freshId : OId)
    (db : List AttendanceRec) :
    Except ApiError AttendanceRec × List AttendanceRec :=
  if inp.labourerId == "" || inp.projectId == "" || inp.date.isNone ||
      inp.shift == "" || inp.status == "" then
    (.error ⟨400,
      "All fields (labourerId, projectId, date, shift, status) are required"⟩,
     db)
  else if ¬ isValidObjectId inp.labourerId then
    (.error ⟨400, "Invalid labourerId"⟩, db)
  else if ¬ isValidObjectId inp.projectId then
    (.error ⟨400, "Invalid projectId"⟩, db)
  else if (match inp.markedBy with
           | some m => ! isValidObjectId m
           | none => false) then
    (.error ⟨400, "Invalid markedBy user ID"⟩, db)
  else
    let d := inp.date.getD 0
    if db.any (sameAttendanceKey inp.labourerId inp.projectId d inp.shift)
    then
      (.error ⟨409,
        "Attendance already marked for this labourer, project, date, and shift"⟩,
       db)
    else
      let newRec : AttendanceRec :=
        { id := freshId, labourerId := inp.labourerId,
          projectId := inp.projectId, date := d, shift := inp.shift,
          status := inp.status, markedBy := inp.markedBy }
      (.ok newRec, db ++ [newRec])

/-- Update object of `updateAttendance` restricted to the allowed fields;
each field is present exactly when the request supplied it.  The date is
modelled post-parse (the source rejects an unparseable date string). -/
structure AttendanceUpdates where
  labourerId : Option String
  projectId : Option String
  date : Option Int
  shift : Option String
  status : Option String
  markedBy : Option String
deriving Repr, DecidableEq

/-- Embedding of `updateAttendance` (attendance controller 60-175): after
field validation, whenever any unique-key field changes the handler runs
the same duplicate check against every other document before saving. -/
def updateAttendance (attendanceId : String) (u : AttendanceUpdates)
    (db : List AttendanceRec) :
    Except ApiError AttendanceRec × List AttendanceRec :=
  if ¬ isValidObjectId attendanceId then
    (.error ⟨400, "Invalid attendance ID"⟩, db)
  else if (match u.labourerId with
           | some s => ! isValidObjectId s
           | none => false) then
    (.error ⟨400, "Invalid labourerId"⟩, db)
  else if (match u.projectId with
           | some s => ! isValidObjectId s
           | none => false) then
    (.error ⟨400, "Invalid projectId"⟩, db)
  else if (match u.markedBy with
           | some s => ! isValidObjectId s
           | none => false) then
    (.error ⟨400, "Invalid markedBy user ID"⟩, db)
  else if (match u.shift with
           | some s => ! ["morning", "evening", "night"].contains s
           | none => false) then
    (.error ⟨400, "Shift must be one of: morning, evening, night"⟩, db)
  else if (match u.status with
           | some s => ! ["present", "absent", "half-day"].contains s
           | none => false) then
    (.error ⟨400, "Status must be one of: present, absent, half-day"⟩, db)
  else
    match db.find? (fun r => r.id == attendanceId) with
    | none => (.error ⟨404, "Attendance record not found"⟩, db)
    | some att =>
      let keyChanged := u.labourerId.isSome || u.projectId.isSome ||
        u.date.isSome || u.shift.isSome
      let labToCheck := u.labourerId.getD att.labourerId
      let projToCheck := u.projectId.getD att.projectId
      let dateToCheck := u.date.getD att.date
      let shiftToCheck := u.shift.getD att.shift
      if keyChanged && db.any (fun r =>
          r.id != attendanceId &&
          sameAttendanceKey labToCheck projToCheck dateToCheck shiftToCheck r)
      then
        (.error ⟨409,
          "Another attendance record exists for this labourer, project, date, and shift"⟩,
         db)
      else
        let updated : AttendanceRec :=
          { att with
            labourerId := labToCheck, projectId := projToCheck,
            date := dateToCheck, shift := shiftToCheck,
            status := u.status.getD att.status,
            markedBy := match u.markedBy with
              | some m => some m
              | none => att.markedBy }
        (.ok updated,
         db.map (fun r => if r.id == attendanceId then updated else r))

/-- Embedding of `approveLeave` (leave.controller.js 55-89). -/
def approveLeave (leaveId : String) (reviewedBy : Option String)
    (db : List LeaveRec) : Except ApiError LeaveRec × List LeaveRec :=
  if ¬ isValidObjectId leaveId then
    (.error ⟨400, "Invalid leave request ID"⟩, db)
  else if (match reviewedBy with
           | some r => ! isValidObjectId r
           | none => true) then
    (.error ⟨400, "Invalid reviewedBy user ID"⟩, db)
  else
    match db.find? (fun l => l.id == leaveId) with
    | none => (.error ⟨404, "Leave request not found"⟩, db)
    | some leave =>
      if leave.status != "pending" then
        (.error ⟨400,
          "Cannot approve a leave request with status " ++ leave.status⟩,
         db)
      else
        let updated :=
          { leave with status := "approved", reviewedBy := reviewedBy }
        (.ok updated, db.map (fun l => if l.id == leaveId then updated else l))

/-- Embedding of `rejectLeave` (leave.controller.js 94-128). -/
def rejectLeave (leaveId : String) (reviewedBy : Option String)
    (db : List LeaveRec) : Except ApiError LeaveRec × List LeaveRec :=
  if ¬ isValidObjectId leaveId then
    (.error ⟨400, "Invalid leave request ID"⟩, db)
  else if (match reviewedBy with
           | some r => ! isValidObjectId r
           | none => true) then
    (.error ⟨400, "Invalid reviewedBy user ID"⟩, db)
  else
    match db.find? (fun l => l.id == leaveId) with
    | none => (.error ⟨404, "Leave request not found"⟩, db)
    | some leave =>
      if leave.status != "pending" then
        (.error ⟨400,
          "Cannot reject a leave request with status " ++ leave.status⟩,
         db)
      else
        let updated :=
          { leave with status := "rejected", reviewedBy := reviewedBy }
        (.ok updated, db.map (fun l => if l.id == leaveId then updated else l))

/-- Embedding of `cancelLeaveRequest` (leave.controller.js 266-290): only a
pending leave is deleted. -/
def cancelLeaveRequest (leaveId : String) (db : List LeaveRec) :
    Except ApiError String × List LeaveRec :=
  if ¬ isValidObjectId leaveId then
    (.error ⟨400, "Invalid leave request ID"⟩, db)
  else
    match db.find? (fun l => l.id == leaveId) with
    | none => (.error ⟨404, "Leave request not found"⟩, db)
    | some leave =>
      if leave.status != "pending" then
        (.error ⟨400,
          "Cannot cancel a leave request with status " ++ leave.status⟩,
         db)
      else
        (.ok "Leave request cancelled successfully",
         db.filter (fun l => l.id != leaveId))

/-- Embedding of `markSalaryAsPaid` (salary.controller.js 269-301).  `now`
is the clock value the controller uses when no `paymentDate` is supplied.
The controller computes `payDate` and assigns `salary.paymentDate`, but the
salary schema declares no `paymentDate` path, so under the default strict
mode that assignment is discarded by `save()` and by serialization: the
saved and returned document changes only in `status`.  The request-body
validation of `paymentDate` still runs before the write. -/
def markSalaryAsPaid (salaryId : String) (paymentDate : Option JsDate)
    (now : Int) (db : List SalaryRec) :
    Except ApiError SalaryRec × List SalaryRec :=
  if ¬ isValidObjectId salaryId then
    (.error ⟨400, "Invalid salary record ID"⟩, db)
  else
    match paymentDate with
    | some none => (.error ⟨400, "Invalid paymentDate"⟩, db)
    | _ =>
      match db.find? (fun r => r.id == salaryId) with
      | none => (.error ⟨404, "Salary record not found"⟩, db)
      | some sal =>
        let updated := { sal with status := "paid" }
        (.ok updated,
         db.map (fun r => if r.id == salaryId then updated else r))

/-! Theorems. -/

/-- Sample pending salary record (no stored paymentDate) used for claim
C10. -/
def c10SampleSalary : SalaryRec :=
  { id := "salary000001", labourerId := "labourer0001", startPeriod := 0,
    endPeriod := 10, totalDaysPresent := 5, dailyWage := 100,
    totalSalary := 500, status := "pending", payslipUrl := "u",
    paymentDate := none }

/-- Claim C10 (code bug): evaluating mark-as-paid at the failing input.
The request supplies `paymentDate = 99` for an existing pending record;
the saved and returned document transitions to status `paid` with every
other field unchanged, but its `paymentDate` is NOT modified — it stays
absent — because the salary schema declares no `paymentDate` path and
strict mode drops the controller's write, contradicting the claim (and
the controller's stated intent) that the operation also modifies
`paymentDate`. -/
theorem markSalaryAsPaid_discards_paymentDate :
    markSalaryAsPaid "salary000001" (some (some 99)) 42 [c10SampleSalary]
      = (.ok { c10SampleSalary with status := "paid" },
         [{ c10SampleSalary with status := "paid" }]) ∧
    ({ c10SampleSalary with status := "paid" } : SalaryRec).paymentDate
      = none ∧
    ({ c10SampleSalary with status := "paid" } : SalaryRec).paymentDate
      ≠ some 99 ∧
    ({ c10SampleSalary with status := "paid" } : SalaryRec).labourerId
      = c10SampleSalary.labourerId ∧
    ({ c10SampleSalary with status := "paid" } : SalaryRec).totalSalary
      = c10SampleSalary.totalSalary := by
  refine ⟨?_, rfl, by decide, rfl, rfl⟩
  have hid : isValidObjectId "salary000001" = true := by decide
  simp [markSalaryAsPaid, hid, c10SampleSalary]

/-- Claim C9: approving or rejecting a leave succeeds only when its current
status is `pending` (the operation then records the new status and the
reviewer); on any other status the operation fails with a descriptive error
and the stored data is unchanged; likewise cancelling (deleting) a leave
succeeds only when its status is `pending`. -/
theorem leave_lifecycle_pending_only
    (leaveId rb : String) (db : List LeaveRec) (leave : LeaveRec)
    (hid : isValidObjectId leaveId = true)
    (hrb : isValidObjectId rb = true)
    (hfind : db.find? (fun l => l.id == leaveId) = some leave) :
    (leave.status = "pending" →
      approveLeave leaveId (some rb) db
        = (.ok { leave with status := "approved", reviewedBy := some rb },
           db.map (fun l => if l.id == leaveId then
             { leave with status := "approved", reviewedBy := some rb }
             else l)) ∧
      rejectLeave leaveId (some rb) db
        = (.ok { leave with status := "rejected", reviewedBy := some rb },
           db.map (fun l => if l.id == leaveId then
             { leave with status := "rejected", reviewedBy := some rb }
             else l)) ∧
      cancelLeaveRequest leaveId db
        = (.ok "Leave request cancelled successfully",
           db.filter (fun l => l.id != leaveId))) ∧
    (leave.status ≠ "pending" →
      approveLeave leaveId (some rb) db
        = (.error ⟨400,
            "Cannot approve a leave request with status " ++ leave.status⟩,
           db) ∧
      rejectLeave leaveId (some rb) db
        = (.error ⟨400,
            "Cannot reject a leave request with status " ++ leave.status⟩,
           db) ∧
      cancelLeaveRequest leaveId db
        = (.error ⟨400,
            "Cannot cancel a leave request with status " ++ leave.status⟩,
           db)) := by
  constructor
  · intro hp
    refine ⟨?_, ?_, ?_⟩ <;>
      simp [approveLeave, rejectLeave, cancelLeaveRequest, hid, hrb, hfind,
        hp]
  · intro hp
    refine ⟨?_, ?_, ?_⟩ <;>
      simp [approveLeave, rejectLeave, cancelLeaveRequest, hid, hrb, hfind,
        hp]

/-- Sample pending leave used to witness claim C9. -/
def c9SampleLeave : LeaveRec :=
  { id := "leave0000001", labourerId := "labourer0001", fromDate := 0,
    toDate := 5, reason := "r", status := "pending", appliedOn := 0,
    reviewedBy := none, remarks := none }

/-- Witness for claim C9 at a concrete pending leave. -/
theorem leave_lifecycle_pending_only_witness :
    isValidObjectId "leave0000001" = true ∧
    isValidObjectId "reviewer0001" = true ∧
    [c9SampleLeave].find? (fun l => l.id == "leave0000001")
      = some c9SampleLeave ∧
    (c9SampleLeave.status = "pending" →
      approveLeave "leave0000001" (some "reviewer0001") [c9SampleLeave]
        = (.ok { c9SampleLeave with
                 status := "approved", reviewedBy := some "reviewer0001" },
           [c9SampleLeave].map (fun l => if l.id == "leave0000001" then
             { c9SampleLeave with
               status := "approved", reviewedBy := some "reviewer0001" }
             else l)) ∧
      rejectLeave "leave0000001" (some "reviewer0001") [c9SampleLeave]
        = (.ok { c9SampleLeave with
                 status := "rejected", reviewedBy := some "reviewer0001" },
           [c9SampleLeave].map (fun l => if l.id == "leave0000001" then
             { c9SampleLeave with
               status := "rejected", reviewedBy := some "reviewer0001" }
             else l)) ∧
      cancelLeaveRequest "leave0000001" [c9SampleLeave]
        = (.ok "Leave request cancelled successfully",
           [c9SampleLeave].filter (fun l => l.id != "leave0000001"))) :=
  ⟨by decide, by decide, by decide,
   (leave_lifecycle_pending_only "leave0000001" "reviewer0001"
     [c9SampleLeave] c9SampleLeave (by decide) (by decide) (by decide)).1⟩

/-- A valid object id string is nonempty. -/
theorem valid_oid_ne_empty {s : String} (h : isValidObjectId s = true) :
    (s == "") = false := by
  cases hs : s == "" with
  | false => rfl
  | true =>
    have hse : s = "" := by simpa using hs
    subst hse
    exact absurd h (by decide)

/-- Claim C8: for every valid `(labourerId, projectId, date, shift)`,
executing `markAttendance` twice sequentially with identical key values
yields exactly one created record and one Conflict error, so at most one
attendance record per tuple exists afterwards; the invariant is enforced by
an existence check before insert, and `updateAttendance` performs the same
duplicate check whenever any key field changes. -/
theorem attendance_duplicate_key_guard
    (inp : MarkAttendanceInput) (d : Int) (f1 f2 : OId)
    (db : List AttendanceRec)
    (attendanceId : String) (u : AttendanceUpdates)
    (udb : List AttendanceRec) (att other : AttendanceRec)
    (hv1 : isValidObjectId inp.labourerId = true)
    (hv2 : isValidObjectId inp.projectId = true)
    (hd : inp.date = some d)
    (hsh : (inp.shift == "") = false)
    (hst : (inp.status == "") = false)
    (hmb : inp.markedBy.all isValidObjectId = true)
    (hfresh : db.any
      (sameAttendanceKey inp.labourerId inp.projectId d inp.shift) = false)
    (huid : isValidObjectId attendanceId = true)
    (hu1 : u.labourerId.all isValidObjectId = true)
    (hu2 : u.projectId.all isValidObjectId = true)
    (hu3 : u.markedBy.all isValidObjectId = true)
    (hu4 : u.shift.all (["morning", "evening", "night"].contains ·) = true)
    (hu5 : u.status.all
      (["present", "absent", "half-day"].contains ·) = true)
    (hufind : udb.find? (fun r => r.id == attendanceId) = some att)
    (hukey : (u.labourerId.isSome || u.projectId.isSome || u.date.isSome ||
      u.shift.isSome) = true)
    (hother : other ∈ udb)
    (hoid : (other.id == attendanceId) = false)
    (hodup : sameAttendanceKey (u.labourerId.getD att.labourerId)
      (u.projectId.getD att.projectId) (u.date.getD att.date)
      (u.shift.getD att.shift) other = true) :
    (∃ created db1,
      markAttendance inp f1 db = (.ok created, db1) ∧
      db1 = db ++ [created] ∧
      markAttendance inp f2 db1
        = (.error ⟨409,
            "Attendance already marked for this labourer, project, date, and shift"⟩,
           db1) ∧
      db1.countP
        (sameAttendanceKey inp.labourerId inp.projectId d inp.shift) = 1) ∧
    updateAttendance attendanceId u udb
      = (.error ⟨409,
          "Another attendance record exists for this labourer, project, date, and shift"⟩,
         udb) := by
  constructor
  · have hne1 := valid_oid_ne_empty hv1
    have hne2 := valid_oid_ne_empty hv2
    have hmb2 : (match inp.markedBy with
        | some m => ! isValidObjectId m
        | none => false) = false := by
      cases hm : inp.markedBy with
      | none => rfl
      | some m => simp [hm, Option.all] at hmb; simp [hmb]
    refine ⟨(⟨f1, inp.labourerId, inp.projectId, d, inp.shift, inp.status, inp.markedBy⟩ : AttendanceRec),
      db ++ [(⟨f1, inp.labourerId, inp.projectId, d, inp.shift, inp.status, inp.markedBy⟩ : AttendanceRec)], ?_, rfl, ?_, ?_⟩
    · simp [markAttendance, hne1, hne2, hd, hsh, hst, hv1, hv2, hmb2,
        hfresh]
    · have hdup : (db ++ [(⟨f1, inp.labourerId, inp.projectId, d, inp.shift, inp.status, inp.markedBy⟩ : AttendanceRec)]).any
          (sameAttendanceKey inp.labourerId inp.projectId d inp.shift)
          = true := by
        simp [List.any_append, sameAttendanceKey]
      simp [markAttendance, hne1, hne2, hd, hsh, hst, hv1, hv2, hmb2, hdup]
    · have hzero : db.countP
          (sameAttendanceKey inp.labourerId inp.projectId d inp.shift)
          = 0 := by
        rw [List.countP_eq_zero]
        intro a ha
        by_contra hc
        have : db.any
            (sameAttendanceKey inp.labourerId inp.projectId d inp.shift)
            = true := List.any_eq_true.mpr ⟨a, ha, hc⟩
        rw [this] at hfresh; exact absurd hfresh (by decide)
      rw [List.countP_append, hzero]
      simp [sameAttendanceKey]
  · have hu1x : (match u.labourerId with
        | some s => ! isValidObjectId s
        | none => false) = false := by
      cases hm : u.labourerId with
      | none => rfl
      | some m => simp [hm, Option.all] at hu1; simp [hu1]
    have hu2x : (match u.projectId with
        | some s => ! isValidObjectId s
        | none => false) = false := by
      cases hm : u.projectId with
      | none => rfl
      | some m => simp [hm, Option.all] at hu2; simp [hu2]
    have hu3x : (match u.markedBy with
        | some s => ! isValidObjectId s
        | none => false) = false := by
      cases hm : u.markedBy with
      | none => rfl
      | some m => simp [hm, Option.all] at hu3; simp [hu3]
    have hsh4 : u.shift = none ∨ u.shift = some "morning" ∨
        u.shift = some "evening" ∨ u.shift = some "night" := by
      cases hm : u.shift with
      | none => exact Or.inl rfl
      | some m =>
        simp [hm, Option.all] at hu4
        rcases hu4 with h | h | h
        · exact Or.inr (Or.inl (by rw [h]))
        · exact Or.inr (Or.inr (Or.inl (by rw [h])))
        · exact Or.inr (Or.inr (Or.inr (by rw [h])))
    have hst5 : u.status = none ∨ u.status = some "present" ∨
        u.status = some "absent" ∨ u.status = some "half-day" := by
      cases hm : u.status with
      | none => exact Or.inl rfl
      | some m =>
        simp [hm, Option.all] at hu5
        rcases hu5 with h | h | h
        · exact Or.inr (Or.inl (by rw [h]))
        · exact Or.inr (Or.inr (Or.inl (by rw [h])))
        · exact Or.inr (Or.inr (Or.inr (by rw [h])))
    have hany : udb.any (fun r =>
        r.id != attendanceId &&
        sameAttendanceKey (u.labourerId.getD att.labourerId)
          (u.projectId.getD att.projectId) (u.date.getD att.date)
          (u.shift.getD att.shift) r) = true := by
      refine List.any_eq_true.mpr ⟨other, hother, ?_⟩
      simp [bne, hoid, hodup]
    have hne : ¬ other.id = attendanceId := fun he => by simp [he] at hoid
    rcases hsh4 with h4 | h4 | h4 | h4 <;>
      rcases hst5 with h5 | h5 | h5 | h5 <;>
      simp only [h4, h5, Option.getD_none, Option.getD_some,
        Option.isSome_none, Option.isSome_some, Bool.or_true, Bool.or_false,
        Bool.true_or, Bool.false_or] at hodup hukey ⊢ <;>
      simp [updateAttendance, huid, hu1x, hu2x, hu3x, hufind, h4, h5] <;>
      first
      | exact ⟨other, hother, hne, hodup⟩
      | exact ⟨by simpa using hukey, other, hother, hne, hodup⟩


/-- Sample mark-attendance body used to witness claim C8. -/
def c8Input : MarkAttendanceInput :=
  ⟨"labourer0001", "project00001", some 7, "morning", "present", none⟩

/-- Stored attendance record being updated in the witness of claim C8. -/
def c8AttX : AttendanceRec :=
  ⟨"att000000001", "labourer0001", "project00001", 7, "morning", "present",
   none⟩

/-- Conflicting attendance record in the witness of claim C8. -/
def c8AttY : AttendanceRec :=
  ⟨"att000000002", "labourer0001", "project00001", 7, "evening", "present",
   none⟩

/-- Update object of the witness of claim C8: it changes only the shift,
onto the key occupied by `c8AttY`. -/
def c8Updates : AttendanceUpdates :=
  ⟨none, none, none, some "evening", none, none⟩

/-- Witness for claim C8: a concrete double create and a concrete
conflicting key update. -/
theorem attendance_duplicate_key_guard_witness :
    (∃ created db1,
      markAttendance c8Input "att000000001" [] = (.ok created, db1) ∧
      db1 = [] ++ [created] ∧
      markAttendance c8Input "att000000002" db1
        = (.error ⟨409,
            "Attendance already marked for this labourer, project, date, and shift"⟩,
           db1) ∧
      db1.countP
        (sameAttendanceKey c8Input.labourerId c8Input.projectId 7
          c8Input.shift) = 1) ∧
    updateAttendance "att000000001" c8Updates [c8AttX, c8AttY]
      = (.error ⟨409,
          "Another attendance record exists for this labourer, project, date, and shift"⟩,
         [c8AttX, c8AttY]) :=
  attendance_duplicate_key_guard c8Input 7 "att000000001" "att000000002" []
    "att000000001" c8Updates [c8AttX, c8AttY] c8AttX c8AttY
    (by decide) (by decide) (by decide) (by decide) (by decide) (by decide)
    (by decide) (by decide) (by decide) (by decide) (by decide) (by decide)
    (by decide) (by decide) (by decide) (by decide) (by decide) (by decide)


/-- Claim C4: for the leave-list and salary-list queries with period
bounds, a stored record qualifies under the date-range filter exactly when
its interval overlaps the query window: `record.end >= queryStart` (when
supplied) and `record.start <= queryEnd` (when supplied), each bound
applied independently and omissible — overlap, not containment or exact
match.  The quantification over `Option Int` covers the omitted-bound
cases; a supplied bound is a validly parsed date. -/
theorem period_overlap_filter_semantics (qs qe : Option Int)
    (sr : SalaryRec) (lr : LeaveRec) :
    (∃ f, buildSalaryFilters
        ⟨none, none, qs.map some, qe.map some, none, none, none⟩ = .ok f ∧
      (matchesSalaryFilters f sr = true ↔
        (∀ a ∈ qs, a ≤ sr.endPeriod) ∧ (∀ b ∈ qe, sr.startPeriod ≤ b))) ∧
    (matchesLeaveFilters
        (buildLeaveFilters
          ⟨none, none, qs.map some, qe.map some, none, none, none⟩) lr
        = true ↔
      (∀ a ∈ qs, a ≤ lr.toDate) ∧ (∀ b ∈ qe, lr.fromDate ≤ b)) := by
  constructor
  · cases qs <;> cases qe <;>
      exact ⟨_, rfl, by
        simp [matchesSalaryFilters, Option.all]⟩
  · cases qs <;> cases qe <;>
      simp [matchesLeaveFilters, buildLeaveFilters, Option.all]


/-- Sample salary record used for claim C3; its labourer differs from the
(invalid) identifier supplied in the filter. -/
def c3Salary : SalaryRec :=
  ⟨"salary000001", "labourer0001", 0, 10, 3, 100, 300, "pending", "u",
   none⟩

/-- Sample attendance record used for claim C3. -/
def c3Att : AttendanceRec :=
  ⟨"att000000001", "labourer0001", "project00001", 7, "morning", "present",
   none⟩

/-- Counterexample to claim C3 as stated: `"xyz"` is not a valid object
identifier, yet `listSalaryRecords` filtered by it does not fail with a
validation error — it succeeds and returns the full, unfiltered record
set; likewise `getAttendanceByLabourer` given invalid `projectId` and
`markedBy` filters succeeds and returns every record of the labourer.
The invalid criteria are silently dropped and the result set is wider
than the supplied filter intended. -/
theorem invalid_filters_silently_dropped_counterexample :
    isValidObjectId "xyz" = false ∧
    listSalaryRecords ⟨some "xyz", none, none, none, none, none, none⟩
        [c3Salary]
      = .ok ⟨⟨1, 1, 1, 1⟩, [c3Salary]⟩ ∧
    getAttendanceByLabourer "labourer0001"
        ⟨some "xyz", none, none, some "xyz", none, none, none, none⟩ [c3Att]
      = .ok ⟨⟨1, 1, 1, 1⟩, [c3Att]⟩ := by
  have hxyz : isValidObjectId "xyz" = false := by decide
  have hlab : isValidObjectId "labourer0001" = true := by decide
  refine ⟨hxyz, ?_, ?_⟩
  · simp [listSalaryRecords, buildSalaryFilters, hxyz, coercePage,
      coerceLimit, sortSalaries, matchesSalaryFilters, ceilDiv, c3Salary,
      Option.all, Except.map]
  · simp [getAttendanceByLabourer, buildAttByLabourerFilters, hxyz, hlab,
      coercePage, coerceLimit, sortAttendance, matchesAttFilters, ceilDiv,
      c3Att, Option.all]

/-- Claim C3 amended: in the cited list endpoints a syntactically invalid
optional identifier filter never fails the request — the criterion is
silently dropped and the call behaves as if the filter had not been
supplied, so the result set is wider than intended.  An unparseable
optional date is likewise dropped in `listSalaryRecords` (the assembled
`$and` clause is deleted when it stays empty) and in
`getAttendanceByLabourer` when the other date bound parses; but when only
unparseable date strings are supplied to `getAttendanceByLabourer`, the
empty date clause stays in the query and the request fails with a
500-class cast error from the persistence layer, not an InvalidDate
validation error.  Only the `status` enum filter of `listSalaryRecords`
fails the request with a validation error. -/
theorem invalid_filters_silently_dropped (lid mkId pjId labId : String)
    (db : List SalaryRec) (adb : List AttendanceRec) (d : Int)
    (hl : isValidObjectId lid = false)
    (hp : isValidObjectId pjId = false)
    (hm : isValidObjectId mkId = false)
    (hlab : isValidObjectId labId = true) :
    buildSalaryFilters
        ⟨some lid, none, some none, some none, some none, none, none⟩
      = .ok ⟨none, none, none, none, none, none⟩ ∧
    listSalaryRecords
        ⟨some lid, none, some none, some none, some none, none, none⟩ db
      = listSalaryRecords ⟨none, none, none, none, none, none, none⟩ db ∧
    buildAttByLabourerFilters labId
        ⟨some pjId, none, none, some mkId, none, none, none, none⟩
      = ⟨labId, none, none, none, none, none⟩ ∧
    getAttendanceByLabourer labId
        ⟨some pjId, none, none, some mkId, none, none, none, none⟩ adb
      = getAttendanceByLabourer labId
          ⟨none, none, none, none, none, none, none, none⟩ adb ∧
    getAttendanceByLabourer labId
        ⟨none, none, none, none, some none, some none, none, none⟩ adb
      = .error ⟨500, "Cast to date failed for value at path date"⟩ ∧
    (buildAttByLabourerFilters labId
        ⟨none, none, none, none, some (some d), some none, none,
         none⟩).dateClause
      = some (some d, none) := by
  refine ⟨?_, ?_, ?_, ?_, ?_, ?_⟩
  · simp [buildSalaryFilters, hl]
  · simp [listSalaryRecords, buildSalaryFilters, hl]
  · simp [buildAttByLabourerFilters, hp, hm]
  · simp [getAttendanceByLabourer, buildAttByLabourerFilters, hp, hm, hlab]
  · simp [getAttendanceByLabourer, buildAttByLabourerFilters, hlab]
  · simp [buildAttByLabourerFilters]

/-- Witness for the amended claim C3 at concrete invalid filter values. -/
theorem invalid_filters_silently_dropped_witness :
    isValidObjectId "xyz" = false ∧
    isValidObjectId "labourer0001" = true ∧
    buildSalaryFilters
        ⟨some "xyz", none, some none, some none, some none, none, none⟩
      = .ok ⟨none, none, none, none, none, none⟩ ∧
    buildAttByLabourerFilters "labourer0001"
        ⟨some "xyz", none, none, some "xyz", none, none, none, none⟩
      = ⟨"labourer0001", none, none, none, none, none⟩ ∧
    getAttendanceByLabourer "labourer0001"
        ⟨none, none, none, none, some none, some none, none, none⟩ []
      = .error ⟨500, "Cast to date failed for value at path date"⟩ :=
  ⟨by decide, by decide,
   (invalid_filters_silently_dropped "xyz" "xyz" "xyz" "labourer0001" [] []
     0 (by decide) (by decide) (by decide) (by decide)).1,
   (invalid_filters_silently_dropped "xyz" "xyz" "xyz" "labourer0001" [] []
     0 (by decide) (by decide) (by decide) (by decide)).2.2.1,
   (invalid_filters_silently_dropped "xyz" "xyz" "xyz" "labourer0001" [] []
     0 (by decide) (by decide) (by decide) (by decide)).2.2.2.2.1⟩

/-- Coerced page limits are positive. -/
theorem coerceLimit_toNat_pos (l : Option JsNum) :
    0 < (coerceLimit l).toNat := by
  rcases l with _ | (_ | v)
  · decide
  · decide
  · by_cases hv : 0 < v
    · simp [coerceLimit, hv]
    · simp [coerceLimit, hv]

/-- The integer ceiling `ceilDiv a b` is the least `m` with `a ≤ m * b`. -/
theorem ceilDiv_le_iff {a b m : Nat} (hb : 0 < b) :
    ceilDiv a b ≤ m ↔ a ≤ m * b := by
  unfold ceilDiv
  constructor
  · intro h
    have h2 : a + b - 1 < (m + 1) * b :=
      (Nat.div_lt_iff_lt_mul hb).mp (Nat.lt_succ_of_le h)
    have hx : (m + 1) * b = m * b + b := by ring
    omega
  · intro h
    have hx : (m + 1) * b = m * b + b := by ring
    have h2 : a + b - 1 < (m + 1) * b := by omega
    exact Nat.lt_succ_iff.mp ((Nat.div_lt_iff_lt_mul hb).mpr h2)

/-- Claim C5: for every paginated salary-list call, `page` defaults to 1
and `limit` defaults to 20, and non-numeric or non-positive values of
either input fall back to those defaults rather than producing an error;
the records skipped equal `(page-1)*limit` (stated element-wise); and the
response metadata has `totalPages = ceil(total/limit)` (stated as the least
number of pages covering `total`), `currentPage = page`, and `pageSize`
equal to the actual number of records returned, which is at most `limit`. -/
theorem pagination_semantics (q : SalaryListQuery) (db : List SalaryRec)
    (resp : SalaryListResp)
    (h : listSalaryRecords q db = .ok resp) :
    resp.meta.currentPage = coercePage q.page ∧
    ((q.page = none ∨ q.page = some none ∨
        ∃ v, v ≤ 0 ∧ q.page = some (some v)) → coercePage q.page = 1) ∧
    ((q.limit = none ∨ q.limit = some none ∨
        ∃ v, v ≤ 0 ∧ q.limit = some (some v)) → coerceLimit q.limit = 20) ∧
    (∀ v, 0 < v → q.page = some (some v) → coercePage q.page = v) ∧
    (∀ v, 0 < v → q.limit = some (some v) → coerceLimit q.limit = v) ∧
    resp.meta.pageSize = resp.records.length ∧
    resp.records.length ≤ (coerceLimit q.limit).toNat ∧
    resp.meta.total ≤ resp.meta.totalPages * (coerceLimit q.limit).toNat ∧
    (∀ m : Nat, resp.meta.total ≤ m * (coerceLimit q.limit).toNat →
      resp.meta.totalPages ≤ m) ∧
    (∀ f, buildSalaryFilters q = .ok f →
      resp.meta.total = (db.filter (matchesSalaryFilters f)).length ∧
      (∀ i : Nat, i < (coerceLimit q.limit).toNat →
        resp.records[i]? =
          (sortSalaries (db.filter (matchesSalaryFilters f)))[
            ((coercePage q.page - 1) * coerceLimit q.limit).toNat + i]?)) := by
  have hbpos := coerceLimit_toNat_pos q.limit
  cases hb : buildSalaryFilters q with
  | error e =>
    rw [listSalaryRecords, hb] at h
    exact absurd h (by simp [Except.map])
  | ok f =>
    rw [listSalaryRecords, hb] at h
    simp only [Except.map, Except.ok.injEq] at h
    subst h
    refine ⟨rfl, ?_, ?_, ?_, ?_, rfl, ?_, ?_, ?_, ?_⟩
    · rintro (hp | hp | ⟨v, hv, hp⟩) <;> simp [coercePage, hp] <;> omega
    · rintro (hp | hp | ⟨v, hv, hp⟩) <;> simp [coerceLimit, hp] <;> omega
    · intro v hv hp; simp [coercePage, hp, hv]
    · intro v hv hp; simp [coerceLimit, hp, hv]
    · simp [List.length_take]
    · exact (ceilDiv_le_iff hbpos).mp le_rfl
    · intro m hm; exact (ceilDiv_le_iff hbpos).mpr hm
    · intro g hg
      injection hg with hg
      subst hg
      refine ⟨rfl, ?_⟩
      intro i hi
      rw [List.getElem?_take, if_pos hi, List.getElem?_drop]


/-- Witness for claim C5 at a concrete call with no query parameters. -/
theorem pagination_semantics_witness :
    listSalaryRecords ⟨none, none, none, none, none, none, none⟩ []
      = .ok ⟨⟨0, 0, 1, 0⟩, []⟩ ∧
    (⟨⟨0, 0, 1, 0⟩, []⟩ : SalaryListResp).meta.currentPage
      = coercePage none ∧
    coercePage none = 1 ∧ coerceLimit none = 20 := by
  have h : listSalaryRecords ⟨none, none, none, none, none, none, none⟩ []
      = .ok ⟨⟨0, 0, 1, 0⟩, []⟩ := by
    simp [listSalaryRecords, buildSalaryFilters, coercePage, coerceLimit,
      sortSalaries, ceilDiv, Except.map]
  have hc := pagination_semantics _ [] _ h
  exact ⟨h, hc.1, hc.2.1 (Or.inl rfl), hc.2.2.1 (Or.inl rfl)⟩


/-- The summary-copy step leaves the `present` counter unchanged on a
group with a different status key. -/
theorem summaryStep_present_ne (acc : AttSummary) (p : String × Nat)
    (h : (p.1 == "present") = false) :
    (summaryStep acc p).present = acc.present := by
  simp only [summaryStep, h, Bool.false_eq_true, if_false]
  split
  · rfl
  · split
    · rfl
    · rfl

/-- The summary-copy step leaves the `absent` counter unchanged on a group
with a different status key. -/
theorem summaryStep_absent_ne (acc : AttSummary) (p : String × Nat)
    (h : (p.1 == "absent") = false) :
    (summaryStep acc p).absent = acc.absent := by
  simp only [summaryStep, h, Bool.false_eq_true, if_false]
  split
  · rfl
  · split
    · rfl
    · rfl

/-- The summary-copy step leaves the `halfDay` counter unchanged on a
group with a different status key. -/
theorem summaryStep_halfDay_ne (acc : AttSummary) (p : String × Nat)
    (h : (p.1 == "half-day") = false) :
    (summaryStep acc p).halfDay = acc.halfDay := by
  simp only [summaryStep, h, Bool.false_eq_true, if_false]
  split
  · rfl
  · split
    · rfl
    · rfl

/-- Folding the summary-copy step over groups none of which carry the key
`k` leaves the `g`-counter unchanged. -/
theorem foldl_summaryStep_const (g : AttSummary → Nat) (k : String)
    (hne : ∀ acc p, (p.1 == k) = false → g (summaryStep acc p) = g acc) :
    ∀ (l : List (String × Nat)) (acc : AttSummary),
      (∀ p ∈ l, (p.1 == k) = false) →
      g (l.foldl summaryStep acc) = g acc
  | [], _, _ => rfl
  | p :: t, acc, h => by
    rw [List.foldl_cons,
      foldl_summaryStep_const g k hne t _
        (fun q hq => h q (List.mem_cons_of_mem _ hq))]
    exact hne acc p (h p (List.mem_cons_self _ _))

/-- Folding the summary-copy step over groups with pairwise distinct keys
sets the `g`-counter to the count carried by the unique `k`-group. -/
theorem foldl_summaryStep_set (g : AttSummary → Nat) (k : String)
    (hne : ∀ acc p, (p.1 == k) = false → g (summaryStep acc p) = g acc)
    (hset : ∀ acc v, g (summaryStep acc (k, v)) = v) :
    ∀ (l : List (String × Nat)) (acc : AttSummary) (v : Nat),
      (l.map Prod.fst).Nodup → (k, v) ∈ l →
      g (l.foldl summaryStep acc) = v
  | [], _, _, _, hm => absurd hm (List.not_mem_nil _)
  | p :: t, acc, v, hn, hm => by
    have hn2 := hn
    rw [List.map_cons] at hn2
    obtain ⟨hknot, hnt⟩ := List.nodup_cons.mp hn2
    rw [List.foldl_cons]
    rcases List.mem_cons.mp hm with heq | hmem
    · subst heq
      rw [foldl_summaryStep_const g k hne t _ ?_]
      · exact hset acc v
      · intro q hq
        refine beq_eq_false_iff_ne.mpr (fun he => ?_)
        have hq1 : q.1 ∈ t.map Prod.fst := List.mem_map_of_mem _ hq
        rw [he] at hq1
        exact hknot hq1
    · exact foldl_summaryStep_set g k hne hset t _ v hnt hmem

/-- Keys of the status aggregation are pairwise distinct. -/
theorem statusAggregation_keys_nodup (recs : List AttendanceRec) :
    ((statusAggregation recs).map Prod.fst).Nodup := by
  unfold statusAggregation
  rw [List.map_map]
  have he : (Prod.fst ∘ fun s =>
      (s, recs.countP (fun r => r.status == s))) = id := rfl
  rw [he, List.map_id]
  exact List.nodup_dedup _

/-- Each fixed-shape counter of `summarize` equals the number of records
with the corresponding status. -/
theorem summarize_counter (g : AttSummary → Nat) (k : String)
    (hne : ∀ acc p, (p.1 == k) = false → g (summaryStep acc p) = g acc)
    (hset : ∀ acc v, g (summaryStep acc (k, v)) = v)
    (hzero : g ⟨0, 0, 0, 0⟩ = 0)
    (hframe : ∀ base x, g { base with totalRecords := x } = g base)
    (recs : List AttendanceRec) :
    g (summarize recs) = recs.countP (fun r => r.status == k) := by
  unfold summarize
  rw [hframe]
  by_cases hmem : k ∈ (recs.map (fun r => r.status)).dedup
  · have hm : (k, recs.countP (fun r => r.status == k))
        ∈ statusAggregation recs := by
      unfold statusAggregation
      exact List.mem_map.mpr ⟨k, hmem, rfl⟩
    exact foldl_summaryStep_set g k hne hset _ _ _
      (statusAggregation_keys_nodup recs) hm
  · have hz : recs.countP (fun r => r.status == k) = 0 := by
      rw [List.countP_eq_zero]
      intro r hr hc
      have : r.status = k := by simpa using hc
      exact hmem (List.mem_dedup.mpr
        (List.mem_map.mpr ⟨r, hr, this⟩))
    rw [hz, foldl_summaryStep_const g k hne _ _ ?_, hzero]
    intro p hp
    unfold statusAggregation at hp
    rcases List.mem_map.mp hp with ⟨s, hs, hsp⟩
    have hp1 : p.1 = s := by rw [← hsp]
    refine beq_eq_false_iff_ne.mpr (fun he => hmem ?_)
    rw [← he, hp1]
    exact hs

/-- Folding addition of group counts is the sum of the counts. -/
theorem foldl_add_snd (l : List (String × Nat)) (n : Nat) :
    l.foldl (fun acc p => acc + p.2) n = n + (l.map Prod.snd).sum := by
  induction l generalizing n with
  | nil => simp
  | cons p t ih => simp [ih, Nat.add_assoc]

/-- Counting records by each status of a duplicate-free covering list of
statuses accounts for every record exactly once. -/
theorem sum_countP_cover :
    ∀ (S : List String) (recs : List AttendanceRec), S.Nodup →
      (∀ r ∈ recs, r.status ∈ S) →
      (S.map (fun s => recs.countP (fun r => r.status == s))).sum
        = recs.length
  | [], recs, _, hc => by
    cases recs with
    | nil => rfl
    | cons r t =>
      exact absurd (hc r (List.mem_cons_self _ _)) (List.not_mem_nil _)
  | s :: S2, recs, hn, hc => by
    rw [List.map_cons, List.sum_cons]
    have hsplit : ∀ s2 ∈ S2, recs.countP (fun r => r.status == s2)
        = (recs.filter (fun r => !(r.status == s))).countP
            (fun r => r.status == s2) := by
      intro s2 hs2
      have hss : s2 ≠ s := fun he => (List.nodup_cons.mp hn).1 (he ▸ hs2)
      rw [List.countP_filter]
      refine List.countP_congr (fun r _ => ?_)
      constructor
      · intro hp
        have hr2 : r.status = s2 := by simpa using hp
        simp [hr2, hss]
      · intro hp
        exact (Bool.and_eq_true _ _).mp hp |>.1
    rw [List.map_congr_left hsplit,
      sum_countP_cover S2 (recs.filter (fun r => !(r.status == s)))
        (List.nodup_cons.mp hn).2 ?_,
      List.countP_eq_length_filter]
    · exact (List.length_eq_length_filter_add _).symm
    · intro r hr
      have hrs := List.of_mem_filter hr
      have hmem := hc r (List.mem_of_mem_filter hr)
      rcases List.mem_cons.mp hmem with he | hm
      · rw [he] at hrs
        simp at hrs
      · exact hm

/-- The `totalRecords` field of `summarize` counts every record. -/
theorem summarize_total (recs : List AttendanceRec) :
    (summarize recs).totalRecords = recs.length := by
  show (statusAggregation recs).foldl (fun acc p => acc + p.2) 0
      = recs.length
  rw [foldl_add_snd, Nat.zero_add]
  unfold statusAggregation
  rw [List.map_map]
  have he : (Prod.snd ∘ fun s =>
      (s, recs.countP (fun r => r.status == s)))
      = (fun s => recs.countP (fun r => r.status == s)) := rfl
  rw [he]
  exact sum_countP_cover _ recs (List.nodup_dedup _)
    (fun r hr => List.mem_dedup.mpr (List.mem_map.mpr ⟨r, hr, rfl⟩))

/-- Full specification of `summarize`: one counter per status category,
each defaulting to 0, and a total equal to the sum of the counters (the
last fact uses that every stored status is one of the three categories,
which the attendance schema enum guarantees). -/
theorem summarize_spec (recs : List AttendanceRec)
    (h3 : ∀ r ∈ recs, r.status = "present" ∨ r.status = "absent" ∨
      r.status = "half-day") :
    (summarize recs).present
        = recs.countP (fun r => r.status == "present") ∧
    (summarize recs).absent
        = recs.countP (fun r => r.status == "absent") ∧
    (summarize recs).halfDay
        = recs.countP (fun r => r.status == "half-day") ∧
    (summarize recs).totalRecords
        = (summarize recs).present + (summarize recs).absent +
          (summarize recs).halfDay := by
  have hp := summarize_counter (fun a => a.present) "present"
    summaryStep_present_ne (fun acc v => by simp [summaryStep]) rfl
    (fun _ _ => rfl) recs
  have ha := summarize_counter (fun a => a.absent) "absent"
    summaryStep_absent_ne (fun acc v => by simp [summaryStep]) rfl
    (fun _ _ => rfl) recs
  have hh := summarize_counter (fun a => a.halfDay) "half-day"
    summaryStep_halfDay_ne (fun acc v => by simp [summaryStep]) rfl
    (fun _ _ => rfl) recs
  refine ⟨hp, ha, hh, ?_⟩
  rw [summarize_total, hp, ha, hh]
  have := sum_countP_cover ["present", "absent", "half-day"] recs
    (by decide) (fun r hr => by
      rcases h3 r hr with h | h | h <;> simp [h])
  simpa [Nat.add_assoc] using this.symm


/-- Claim C7: for every attendance summary query (by labourer or by
project, with optional date range), the result is a fixed-shape object with
one counter per status category — `present`, `absent`, `halfDay` — where a
category with no matching records still appears with value 0 (each counter
equals the exact number of matching records of that status, zero included),
plus a `totalRecords` field equal to the sum of the three counters. -/
theorem attendance_summary_fixed_shape (labId pjId : String)
    (qs qe : Option Int) (db : List AttendanceRec) (s1 s2 : AttSummary)
    (h3 : ∀ r ∈ db, r.status = "present" ∨ r.status = "absent" ∨
      r.status = "half-day")
    (h1 : getLabourerAttendanceSummary labId (qs.map some) (qe.map some) db
      = .ok s1)
    (h2 : getProjectAttendanceSummary pjId (qs.map some) (qe.map some) db
      = .ok s2) :
    (s1.present = (db.filter (labourerSummaryMatch labId qs qe)).countP
        (fun r => r.status == "present") ∧
      s1.absent = (db.filter (labourerSummaryMatch labId qs qe)).countP
        (fun r => r.status == "absent") ∧
      s1.halfDay = (db.filter (labourerSummaryMatch labId qs qe)).countP
        (fun r => r.status == "half-day") ∧
      s1.totalRecords = s1.present + s1.absent + s1.halfDay) ∧
    (s2.present = (db.filter (projectSummaryMatch pjId qs qe)).countP
        (fun r => r.status == "present") ∧
      s2.absent = (db.filter (projectSummaryMatch pjId qs qe)).countP
        (fun r => r.status == "absent") ∧
      s2.halfDay = (db.filter (projectSummaryMatch pjId qs qe)).countP
        (fun r => r.status == "half-day") ∧
      s2.totalRecords = s2.present + s2.absent + s2.halfDay) := by
  have hs1 : s1 = summarize (db.filter (labourerSummaryMatch labId qs qe))
      := by
    unfold getLabourerAttendanceSummary at h1
    split at h1
    · exact absurd h1 (by simp)
    · cases qs <;> cases qe <;> exact (Except.ok.inj h1).symm
  have hs2 : s2 = summarize (db.filter (projectSummaryMatch pjId qs qe))
      := by
    unfold getProjectAttendanceSummary at h2
    split at h2
    · exact absurd h2 (by simp)
    · cases qs <;> cases qe <;> exact (Except.ok.inj h2).symm
  subst hs1
  subst hs2
  exact ⟨summarize_spec _ (fun r hr => h3 r (List.mem_of_mem_filter hr)),
    summarize_spec _ (fun r hr => h3 r (List.mem_of_mem_filter hr))⟩

/-- Sample attendance store used to witness claim C7: one labourer and one
project with 2 present, 1 absent and 1 half-day records. -/
def c7Db : List AttendanceRec :=
  [⟨"att000000001", "labourer0001", "project00001", 1, "morning", "present",
    none⟩,
   ⟨"att000000002", "labourer0001", "project00001", 2, "morning", "present",
    none⟩,
   ⟨"att000000003", "labourer0001", "project00001", 3, "morning", "absent",
    none⟩,
   ⟨"att000000004", "labourer0001", "project00001", 4, "morning",
    "half-day", none⟩]

/-- Witness for claim C7: the sample store yields the summary
`(present 2, absent 1, halfDay 1, totalRecords 4)` and that summary
satisfies the fixed-shape specification. -/
theorem attendance_summary_fixed_shape_witness :
    getLabourerAttendanceSummary "labourer0001" none none c7Db
      = .ok ⟨2, 1, 1, 4⟩ ∧
    getProjectAttendanceSummary "project00001" none none c7Db
      = .ok ⟨2, 1, 1, 4⟩ ∧
    ((⟨2, 1, 1, 4⟩ : AttSummary).present
        = (c7Db.filter (labourerSummaryMatch "labourer0001" none none)).countP
            (fun r => r.status == "present") ∧
      (⟨2, 1, 1, 4⟩ : AttSummary).absent
        = (c7Db.filter (labourerSummaryMatch "labourer0001" none none)).countP
            (fun r => r.status == "absent") ∧
      (⟨2, 1, 1, 4⟩ : AttSummary).halfDay
        = (c7Db.filter (labourerSummaryMatch "labourer0001" none none)).countP
            (fun r => r.status == "half-day") ∧
      (⟨2, 1, 1, 4⟩ : AttSummary).totalRecords = 2 + 1 + 1) := by
  have h1 : getLabourerAttendanceSummary "labourer0001" none none c7Db
      = .ok ⟨2, 1, 1, 4⟩ := by rfl
  have h2 : getProjectAttendanceSummary "project00001" none none c7Db
      = .ok ⟨2, 1, 1, 4⟩ := by rfl
  have hmain := attendance_summary_fixed_shape "labourer0001" "project00001"
    none none c7Db ⟨2, 1, 1, 4⟩ ⟨2, 1, 1, 4⟩ (by decide) h1 h2
  exact ⟨h1, h2, hmain.1⟩


/-- The documents committed by the unordered batch insert are exactly the
accepted ones, in order. -/
theorem insertManyUnordered_fst (insertOk : AttendanceRec → Option String) :
    ∀ (start : Nat) (l : List AttendanceRec),
      (insertManyUnordered insertOk start l).1
        = l.filter (fun r => insertOk r == none)
  | _, [] => rfl
  | start, r :: rs => by
    unfold insertManyUnordered
    cases hr : insertOk r with
    | none =>
      simp [List.filter_cons, hr,
        insertManyUnordered_fst insertOk (start + 1) rs]
    | some msg =>
      simp [List.filter_cons, hr,
        insertManyUnordered_fst insertOk (start + 1) rs]

/-- The write errors of the unordered batch insert are exactly the
rejected documents. -/
theorem insertManyUnordered_snd_length
    (insertOk : AttendanceRec → Option String) :
    ∀ (start : Nat) (l : List AttendanceRec),
      (insertManyUnordered insertOk start l).2.length
        = (l.filter (fun r => !(insertOk r == none))).length
  | _, [] => rfl
  | start, r :: rs => by
    unfold insertManyUnordered
    cases hr : insertOk r with
    | none =>
      simp [List.filter_cons, hr,
        insertManyUnordered_snd_length insertOk (start + 1) rs]
    | some msg =>
      simp [List.filter_cons, hr,
        insertManyUnordered_snd_length insertOk (start + 1) rs]

/-- Every per-entry validation failure message is a nonempty, descriptive
string. -/
theorem bulkEntryError_ne_empty (e : BulkEntry) :
    bulkEntryError e ≠ some "" := by
  intro h
  simp only [bulkEntryError] at h
  repeat' split at h
  all_goals exact absurd h (by simp)

/-- A validation failure appears in the pre-validation failure list at its
0-based input index. -/
theorem mem_bulkValidationFailures (entries : List BulkEntry) (i : Nat)
    (e : BulkEntry) (msg : String) (hi : entries[i]? = some e)
    (he : bulkEntryError e = some msg) :
    (⟨i, msg, .raw e⟩ : BulkFailure) ∈ bulkValidationFailures entries := by
  unfold bulkValidationFailures
  refine List.mem_filterMap.mpr ⟨(i, e),
    List.mk_mem_enum_iff_getElem?.mpr hi, ?_⟩
  rw [he]
  rfl

/-- When no entry passes validation, the bulk call fails with a single
validation error and the store is untouched. -/
theorem bulkAddAttendance_error_of_no_valid
    (insertOk : AttendanceRec → Option String) (entries : List BulkEntry)
    (attDb : List AttendanceRec)
    (hno : bulkValidRecords entries = []) :
    ∃ err, bulkAddAttendance insertOk entries attDb
      = (.error err, attDb) := by
  simp only [bulkAddAttendance]
  by_cases he : entries.isEmpty
  · rw [if_pos he]
    exact ⟨_, rfl⟩
  · rw [if_neg he, hno]
    exact ⟨_, rfl⟩

/-- When at least one entry passes validation, the bulk call succeeds with
the merged failure report and commits the accepted documents. -/
theorem bulkAddAttendance_eq_of_valid
    (insertOk : AttendanceRec → Option String) (entries : List BulkEntry)
    (attDb : List AttendanceRec)
    (hne : bulkValidRecords entries ≠ []) :
    bulkAddAttendance insertOk entries attDb =
      (.ok { message := "Bulk attendance insert complete",
             insertedCount :=
               (insertManyUnordered insertOk 0
                 (bulkValidRecords entries)).1.length,
             failedCount :=
               (bulkValidationFailures entries ++
                 (insertManyUnordered insertOk 0
                   (bulkValidRecords entries)).2.map
                     (fun t => (⟨t.1, t.2.1, .doc t.2.2⟩ : BulkFailure))).length,
             failedRecords :=
               bulkValidationFailures entries ++
                 (insertManyUnordered insertOk 0
                   (bulkValidRecords entries)).2.map
                     (fun t => (⟨t.1, t.2.1, .doc t.2.2⟩ : BulkFailure)) },
       attDb ++
         (insertManyUnordered insertOk 0 (bulkValidRecords entries)).1) := by
  have hee : entries.isEmpty = false := by
    cases hE : entries.isEmpty
    · rfl
    · rw [List.isEmpty_iff] at hE
      rw [hE] at hne
      exact absurd rfl hne
  have hv : (bulkValidRecords entries).isEmpty = false := by
    cases hV : (bulkValidRecords entries).isEmpty
    · rfl
    · rw [List.isEmpty_iff] at hV
      exact absurd hV hne
  simp only [bulkAddAttendance, hee, hv, Bool.false_eq_true, if_false]

/-- Claim C6: for every bulk attendance ingestion call, each entry is
validated independently and the input is partitioned into valid and
invalid entries; if no entry is valid the whole call fails with a single
validation error; otherwise the valid entries are batch-inserted
continuing past individual insert failures, and the response merges
pre-validation and post-insert failures into one list of
(index, error, record) triples together with inserted and failed counts;
every invalid entry is reported at its 0-based input index with a
descriptive (nonempty) error. -/
theorem bulk_attendance_partition (entries : List BulkEntry)
    (insertOk : AttendanceRec → Option String)
    (attDb : List AttendanceRec) :
    ((bulkAddAttendance insertOk entries attDb).1.isOk = true ↔
      ∃ e ∈ entries, bulkEntryError e = none) ∧
    (∀ resp newDb,
      bulkAddAttendance insertOk entries attDb = (.ok resp, newDb) →
      resp.insertedCount = ((bulkValidRecords entries).filter
          (fun r => insertOk r == none)).length ∧
      resp.failedCount = (bulkValidationFailures entries).length +
        ((bulkValidRecords entries).filter
          (fun r => !(insertOk r == none))).length ∧
      resp.failedRecords = bulkValidationFailures entries ++
        (insertManyUnordered insertOk 0 (bulkValidRecords entries)).2.map
          (fun t => ⟨t.1, t.2.1, .doc t.2.2⟩) ∧
      (∀ i e msg, entries[i]? = some e → bulkEntryError e = some msg →
        (⟨i, msg, .raw e⟩ : BulkFailure) ∈ resp.failedRecords ∧ msg ≠ "") ∧
      newDb = attDb ++ (bulkValidRecords entries).filter
        (fun r => insertOk r == none)) := by
  have hvalid_iff : bulkValidRecords entries ≠ [] ↔
      ∃ e ∈ entries, bulkEntryError e = none := by
    constructor
    · intro hne
      rcases List.exists_mem_of_ne_nil _ hne with ⟨r, hr⟩
      unfold bulkValidRecords at hr
      rcases List.mem_filterMap.mp hr with ⟨e, hmem, hf⟩
      cases hee : bulkEntryError e with
      | none => exact ⟨e, hmem, hee⟩
      | some m =>
        simp only [hee] at hf
        exact absurd hf (by simp)

    · rintro ⟨e, hmem, hok⟩
      refine List.ne_nil_of_mem (a := bulkEntryToRecord e) ?_
      unfold bulkValidRecords
      refine List.mem_filterMap.mpr ⟨e, hmem, ?_⟩
      simp only [hok]
  constructor
  · constructor
    · intro hok
      by_contra hno
      push_neg at hno
      have hnil : bulkValidRecords entries = [] := by
        unfold bulkValidRecords
        rw [List.filterMap_eq_nil_iff]
        intro e hmem
        cases hee : bulkEntryError e with
        | none => exact absurd hee (hno e hmem)
        | some m => simp
      rcases bulkAddAttendance_error_of_no_valid insertOk entries attDb hnil
        with ⟨err, herr⟩
      rw [herr] at hok
      exact absurd hok (by simp [Except.isOk, Except.toBool])
    · intro hex
      rw [bulkAddAttendance_eq_of_valid insertOk entries attDb
        (hvalid_iff.mpr hex)]
      rfl
  · intro resp newDb h
    by_cases hnil : bulkValidRecords entries = []
    · rcases bulkAddAttendance_error_of_no_valid insertOk entries attDb hnil
        with ⟨err, herr⟩
      rw [herr] at h
      exact absurd (congrArg Prod.fst h) (by simp)
    · rw [bulkAddAttendance_eq_of_valid insertOk entries attDb hnil] at h
      have h1 := congrArg Prod.fst h
      have h2 := congrArg Prod.snd h
      simp only at h1 h2
      have hresp := (Except.ok.inj h1).symm
      subst hresp
      refine ⟨?_, ?_, rfl, ?_, ?_⟩
      · simp [insertManyUnordered_fst]
      · simp [insertManyUnordered_snd_length]
      · intro i e msg hi he
        exact ⟨List.mem_append_left _
          (mem_bulkValidationFailures entries i e msg hi he),
          fun hm => bulkEntryError_ne_empty e (hm ▸ he)⟩
      · rw [← h2, insertManyUnordered_fst]

/-- Valid bulk entry used to witness claim C6. -/
def c6Good (i : Int) : BulkEntry :=
  ⟨some "labourer0001", some "project00001", some (some i),
   some "morning", some "present", none⟩

/-- Invalid bulk entry used to witness claim C6: its shift is not one of
the allowed values. -/
def c6Bad : BulkEntry :=
  ⟨some "labourer0001", some "project00001", some (some 3), some "noon",
   some "present", none⟩

/-- Five-entry bulk upload of claim C6 with entry #3 (0-based index 2)
carrying an invalid shift. -/
def c6Entries : List BulkEntry :=
  [c6Good 1, c6Good 2, c6Bad, c6Good 4, c6Good 5]

/-- Expected response for the claim C6 example: 4 inserted, 1 failed, the
failure reported at 0-based index 2 with a descriptive error. -/
def c6Resp : BulkResp :=
  ⟨"Bulk attendance insert complete", 4, 1,
   [⟨2, "Missing/invalid shift", .raw c6Bad⟩]⟩

/-- Documents committed by the claim C6 example. -/
def c6Inserted : List AttendanceRec :=
  [bulkEntryToRecord (c6Good 1), bulkEntryToRecord (c6Good 2),
   bulkEntryToRecord (c6Good 4), bulkEntryToRecord (c6Good 5)]

/-- Witness for claim C6 at the five-entry example of the spec. -/
theorem bulk_attendance_partition_witness :
    bulkAddAttendance (fun _ => none) c6Entries []
      = (.ok c6Resp, c6Inserted) ∧
    (c6Resp.insertedCount = ((bulkValidRecords c6Entries).filter
        (fun r => (fun _ => (none : Option String)) r == none)).length ∧
      c6Resp.failedCount = (bulkValidationFailures c6Entries).length +
        ((bulkValidRecords c6Entries).filter
          (fun r => !((fun _ => (none : Option String)) r == none))).length ∧
      c6Resp.failedRecords = bulkValidationFailures c6Entries ++
        (insertManyUnordered (fun _ => none) 0
          (bulkValidRecords c6Entries)).2.map
            (fun t => ⟨t.1, t.2.1, .doc t.2.2⟩) ∧
      (∀ i e msg, c6Entries[i]? = some e → bulkEntryError e = some msg →
        (⟨i, msg, .raw e⟩ : BulkFailure) ∈ c6Resp.failedRecords ∧
        msg ≠ "") ∧
      c6Inserted = [] ++ (bulkValidRecords c6Entries).filter
        (fun r => (fun _ => (none : Option String)) r == none)) := by
  have h : bulkAddAttendance (fun _ => none) c6Entries []
      = (.ok c6Resp, c6Inserted) := by rfl
  exact ⟨h,
    (bulk_attendance_partition c6Entries (fun _ => none) []).2
      c6Resp c6Inserted h⟩


/-- Number of present-days of one labourer in the period — the claim-side
count against which the generated record is checked. -/
def presentCount (s e : Int) (attDb : List AttendanceRec) (L : OId) : Nat :=
  (presentInPeriod s e attDb).countP (fun r => r.labourerId == L)

/-- Filtering a duplicate-free list for one of its members yields exactly
that member. -/
theorem filter_beq_eq_singleton :
    ∀ (l : List String) (a : String), l.Nodup → a ∈ l →
      l.filter (fun x => x == a) = [a]
  | [], a, _, ha => absurd ha (List.not_mem_nil _)
  | x :: t, a, hn, ha => by
    obtain ⟨hx, hnt⟩ := List.nodup_cons.mp hn
    rcases List.mem_cons.mp ha with he | hm
    · subst he
      rw [List.filter_cons_of_pos (by simp)]
      have ht : t.filter (fun x => x == a) = [] := by
        rw [List.filter_eq_nil_iff]
        intro b hb
        simp only [beq_iff_eq]
        exact fun hba => hx (hba ▸ hb)
      rw [ht]
    · have hxa : (x == a) = false :=
        beq_eq_false_iff_ne.mpr (fun he => hx (he ▸ hm))
      rw [List.filter_cons_of_neg (by simp [hxa])]
      exact filter_beq_eq_singleton t a hnt hm

/-- There is exactly one aggregation group per labourer with present days
in the period, and it carries that labourer's present-day count. -/
theorem attendanceAggregation_filter (s e : Int) (db : List AttendanceRec)
    (L : OId) (h : 0 < presentCount s e db L) :
    (attendanceAggregation s e db).filter (fun p => p.1 == L)
      = [(L, presentCount s e db L)] := by
  unfold presentCount at h ⊢
  unfold attendanceAggregation
  have hmem : L ∈ ((presentInPeriod s e db).map
      (fun r => r.labourerId)).dedup := by
    rcases List.countP_pos_iff.mp h with ⟨r, hr, hp⟩
    have hrl : r.labourerId = L := by simpa using hp
    exact List.mem_dedup.mpr (List.mem_map.mpr ⟨r, hr, hrl⟩)
  rw [List.filter_map]
  have hcomp : ((fun p : OId × Nat => p.1 == L) ∘ (fun x =>
      (x, (presentInPeriod s e db).countP (fun r => r.labourerId == x))))
      = (fun x => x == L) := rfl
  rw [hcomp, filter_beq_eq_singleton _ L (List.nodup_dedup _) hmem]
  rfl

/-- The ordered batch insert commits everything when every insert is
accepted. -/
theorem insertManyOrdered_all_ok :
    ∀ (l : List SalaryRec),
      insertManyOrdered (fun _ => none) l = (l, none)
  | [] => rfl
  | r :: rs => by
    unfold insertManyOrdered
    rw [insertManyOrdered_all_ok rs]

/-- The aggregation groups exactly cover the labourers with present days,
each group keyed by its labourer. -/
theorem mem_attendanceAggregation (s e : Int) (db : List AttendanceRec)
    (p : OId × Nat) (hp : p ∈ attendanceAggregation s e db) :
    p.1 ∈ ((presentInPeriod s e db).map (fun r => r.labourerId)).dedup ∧
    p = (p.1, (presentInPeriod s e db).countP
      (fun r => r.labourerId == p.1)) := by
  unfold attendanceAggregation at hp
  rcases List.mem_map.mp hp with ⟨x, hx, hxp⟩
  have h1 : p.1 = x := by rw [← hxp]
  subst h1
  exact ⟨hx, hxp.symm⟩


/-- A labourer that already owns a salary record for exactly this period
is in the existing-ids list. -/
theorem contains_salaryExistingIds_iff (s e : Int) (ids : List OId)
    (salDb : List SalaryRec) (L : OId) :
    (salaryExistingIds s e ids salDb).contains L = true ↔
      ∃ r ∈ salDb, ids.contains r.labourerId = true ∧ r.labourerId = L ∧
        r.startPeriod = s ∧ r.endPeriod = e := by
  unfold salaryExistingIds
  rw [List.elem_iff]
  constructor
  · intro h
    rcases List.mem_map.mp h with ⟨r, hr, hrl⟩
    rcases List.mem_filter.mp hr with ⟨hrdb, hcond⟩
    rcases Bool.and_eq_true .. |>.mp hcond with ⟨hc1, hc3⟩
    rcases Bool.and_eq_true .. |>.mp hc1 with ⟨hids, hc2⟩
    exact ⟨r, hrdb, hids, hrl, by simpa using hc2, by simpa using hc3⟩
  · rintro ⟨r, hrdb, hids, hrl, hs, he⟩
    refine List.mem_map.mpr ⟨r, List.mem_filter.mpr ⟨hrdb, ?_⟩, hrl⟩
    have hmem : r.labourerId ∈ ids := List.elem_iff.mp hids
    simp [hmem, hs, he]

/-- Exactly one record for labourer `L` is in the batch to create, and it
is the pending record computed from `L`'s present-day count. -/
theorem salaryToCreate_filter (s e w : Int) (attDb : List AttendanceRec)
    (salDb : List SalaryRec) (L : OId)
    (hL : 0 < presentCount s e attDb L)
    (hnew : ∀ r ∈ salDb,
      ¬(r.labourerId = L ∧ r.startPeriod = s ∧ r.endPeriod = e)) :
    (salaryToCreate s e w attDb salDb).filter (fun r => r.labourerId == L)
      = [mkPendingSalary s e w L (presentCount s e attDb L)] := by
  unfold salaryToCreate
  rw [List.filter_map]
  have hcomp : ((fun r : SalaryRec => r.labourerId == L) ∘
      (fun p : OId × Nat => mkPendingSalary s e w p.1 p.2))
      = (fun p : OId × Nat => p.1 == L) := rfl
  rw [hcomp, List.filter_filter]
  have hcomm : ∀ p ∈ attendanceAggregation s e attDb,
      ((p.1 == L) &&
        ! (salaryExistingIds s e
            ((attendanceAggregation s e attDb).map Prod.fst)
            salDb).contains p.1)
      = (! (salaryExistingIds s e
            ((attendanceAggregation s e attDb).map Prod.fst)
            salDb).contains p.1 && (p.1 == L)) :=
    fun p _ => Bool.and_comm _ _
  rw [List.filter_congr hcomm, ← List.filter_filter,
    attendanceAggregation_filter s e attDb L hL]
  have hnc : (salaryExistingIds s e
      ((attendanceAggregation s e attDb).map Prod.fst) salDb).contains L
      = false := by
    cases hc : (salaryExistingIds s e
        ((attendanceAggregation s e attDb).map Prod.fst) salDb).contains L
    · rfl
    · exfalso
      rcases (contains_salaryExistingIds_iff s e _ salDb L).mp hc
        with ⟨r, hrdb, _, hrl, hs, he⟩
      exact hnew r hrdb ⟨hrl, hs, he⟩
  rw [List.filter_cons_of_pos (by
    show (! (salaryExistingIds s e
        ((attendanceAggregation s e attDb).map Prod.fst) salDb).contains L)
      = true
    rw [hnc]
    rfl), List.filter_nil]
  rfl


/-- A labourer with a positive present-day count yields a nonempty
aggregation. -/
theorem attendanceAggregation_isEmpty_false (s e : Int)
    (attDb : List AttendanceRec) (L : OId)
    (hL : 0 < presentCount s e attDb L) :
    (attendanceAggregation s e attDb).isEmpty = false := by
  cases hE : (attendanceAggregation s e attDb).isEmpty
  · rfl
  · exfalso
    rw [List.isEmpty_iff] at hE
    unfold attendanceAggregation at hE
    rcases List.countP_pos_iff.mp hL with ⟨r, hr, hp⟩
    have hrl : r.labourerId = L := by simpa using hp
    have hmem : L ∈ ((presentInPeriod s e attDb).map
        (fun r => r.labourerId)).dedup :=
      List.mem_dedup.mpr (List.mem_map.mpr ⟨r, hr, hrl⟩)
    rw [List.map_eq_nil_iff.mp hE] at hmem
    exact absurd hmem (List.not_mem_nil _)

/-- Reduction of `generateSalaryForPeriod` on the success path: valid
period, nonempty aggregation, nonempty batch. -/
theorem generateSalaryForPeriod_success (s e w : Int)
    (insertOk : SalaryRec → Option String) (attDb : List AttendanceRec)
    (salDb : List SalaryRec) (hse : s ≤ e) (hw : 0 ≤ w)
    (hAgg : (attendanceAggregation s e attDb).isEmpty = false)
    (hTc : (salaryToCreate s e w attDb salDb).isEmpty = false) :
    generateSalaryForPeriod (some (some s)) (some (some e)) (some w)
        insertOk attDb salDb
      = (match (insertManyOrdered insertOk
            (salaryToCreate s e w attDb salDb)).2 with
        | some msg =>
          (.error ⟨500, msg⟩, salDb ++ (insertManyOrdered insertOk
            (salaryToCreate s e w attDb salDb)).1)
        | none =>
          (.ok ⟨201, "Generated salary records for "
              ++ toString (insertManyOrdered insertOk
                  (salaryToCreate s e w attDb salDb)).1.length
              ++ " labourers",
            (insertManyOrdered insertOk
              (salaryToCreate s e w attDb salDb)).1⟩,
           salDb ++ (insertManyOrdered insertOk
             (salaryToCreate s e w attDb salDb)).1)) := by
  simp only [generateSalaryForPeriod, hAgg, hTc, Bool.false_eq_true,
    if_false]
  rw [if_neg (not_lt.mpr hse), if_neg (not_lt.mpr hw)]

/-- Reduction of `generateSalaryForPeriod` when every aggregated labourer
already has a salary record for the period. -/
theorem generateSalaryForPeriod_already (s e w : Int)
    (insertOk : SalaryRec → Option String) (attDb : List AttendanceRec)
    (salDb : List SalaryRec) (hse : s ≤ e) (hw : 0 ≤ w)
    (hAgg : (attendanceAggregation s e attDb).isEmpty = false)
    (hTc : (salaryToCreate s e w attDb salDb).isEmpty = true) :
    generateSalaryForPeriod (some (some s)) (some (some e)) (some w)
        insertOk attDb salDb
      = (.ok ⟨200,
          "Salary records for this period already generated for all labourers.",
          []⟩, salDb) := by
  simp only [generateSalaryForPeriod, hAgg, hTc, Bool.false_eq_true,
    if_false, if_true]
  rw [if_neg (not_lt.mpr hse), if_neg (not_lt.mpr hw)]


/-- Unfolding equation of `salaryToCreate`. -/
theorem salaryToCreate_def (s e w : Int) (attDb : List AttendanceRec)
    (salDb2 : List SalaryRec) :
    salaryToCreate s e w attDb salDb2
      = ((attendanceAggregation s e attDb).filter (fun p =>
          ! (salaryExistingIds s e
              ((attendanceAggregation s e attDb).map Prod.fst)
              salDb2).contains p.1)).map
          (fun p => mkPendingSalary s e w p.1 p.2) := rfl

/-- After a successful generation run, every aggregated labourer owns a
salary record for the period, so the batch of a re-run is empty. -/
theorem salaryToCreate_after_run (s e w : Int) (attDb : List AttendanceRec)
    (salDb : List SalaryRec) :
    (salaryToCreate s e w attDb
        (salDb ++ salaryToCreate s e w attDb salDb)).isEmpty = true := by
  have hfilter : (attendanceAggregation s e attDb).filter
      (fun p => ! (salaryExistingIds s e
        ((attendanceAggregation s e attDb).map Prod.fst)
        (salDb ++ salaryToCreate s e w attDb salDb)).contains p.1) = [] := by
    rw [List.filter_eq_nil_iff]
    intro p hp
    have hcont : (salaryExistingIds s e
        ((attendanceAggregation s e attDb).map Prod.fst)
        (salDb ++ salaryToCreate s e w attDb salDb)).contains p.1
        = true := by
      rw [contains_salaryExistingIds_iff]
      cases hc : (salaryExistingIds s e
          ((attendanceAggregation s e attDb).map Prod.fst)
          salDb).contains p.1
      · refine ⟨mkPendingSalary s e w p.1 p.2, ?_, ?_, rfl, rfl, rfl⟩
        · refine List.mem_append_right _ ?_
          rw [salaryToCreate_def s e w attDb salDb]
          refine List.mem_map.mpr ⟨p, List.mem_filter.mpr ⟨hp, ?_⟩, rfl⟩
          rw [hc]
          rfl
        · exact List.elem_iff.mpr (List.mem_map_of_mem Prod.fst hp)
      · rcases (contains_salaryExistingIds_iff s e _ salDb p.1).mp hc
          with ⟨r, hrdb, hids, hrl, hs, he⟩
        exact ⟨r, List.mem_append_left _ hrdb, hids, hrl, hs, he⟩
    rw [hcont]
    decide
  rw [salaryToCreate_def s e w attDb
    (salDb ++ salaryToCreate s e w attDb salDb), hfilter]
  rfl

/-- Claim C1: for every call to salary generation with a valid period
`[start, end]` and non-negative `dailyWage`, each labourer having at least
one attendance record with status `present` and date within the period,
and no pre-existing salary record with exactly the triple
`(labourerId, start, end)`, receives exactly one new salary record whose
`totalDaysPresent` equals that labourer's count of present attendance
records in the period, with `totalSalary = totalDaysPresent * dailyWage`,
`status = "pending"` and `payslipUrl = ""`; re-running generation with the
same period creates zero new records and reports that salaries were
already generated. -/
theorem generate_salary_once (s e w : Int) (attDb : List AttendanceRec)
    (salDb : List SalaryRec) (L : OId)
    (hse : s ≤ e) (hw : 0 ≤ w)
    (hL : 0 < presentCount s e attDb L)
    (hnew : ∀ r ∈ salDb,
      ¬(r.labourerId = L ∧ r.startPeriod = s ∧ r.endPeriod = e)) :
    ∃ resp newDb newRec,
      generateSalaryForPeriod (some (some s)) (some (some e)) (some w)
        (fun _ => none) attDb salDb = (.ok resp, newDb) ∧
      resp.statusCode = 201 ∧
      (newDb.drop salDb.length).filter (fun r => r.labourerId == L)
        = [newRec] ∧
      newRec.labourerId = L ∧
      newRec.startPeriod = s ∧
      newRec.endPeriod = e ∧
      newRec.totalDaysPresent = (presentCount s e attDb L : Int) ∧
      newRec.dailyWage = w ∧
      newRec.totalSalary = (presentCount s e attDb L : Int) * w ∧
      newRec.status = "pending" ∧
      newRec.payslipUrl = "" ∧
      generateSalaryForPeriod (some (some s)) (some (some e)) (some w)
        (fun _ => none) attDb newDb
        = (.ok ⟨200,
            "Salary records for this period already generated for all labourers.",
            []⟩, newDb) := by
  have hAgg := attendanceAggregation_isEmpty_false s e attDb L hL
  have hfil := salaryToCreate_filter s e w attDb salDb L hL hnew
  have hTc : (salaryToCreate s e w attDb salDb).isEmpty = false := by
    cases hE : (salaryToCreate s e w attDb salDb).isEmpty
    · rfl
    · rw [List.isEmpty_iff] at hE
      rw [hE] at hfil
      exact absurd hfil.symm (by simp)
  have hrun := generateSalaryForPeriod_success s e w (fun _ => none)
    attDb salDb hse hw hAgg hTc
  rw [insertManyOrdered_all_ok] at hrun
  refine ⟨_, _, mkPendingSalary s e w L (presentCount s e attDb L),
    hrun, rfl, ?_, rfl, rfl, rfl, rfl, rfl, rfl, rfl, rfl, ?_⟩
  · rw [List.drop_left]
    exact hfil
  · rw [generateSalaryForPeriod_already s e w (fun _ => none) attDb
      (salDb ++ salaryToCreate s e w attDb salDb) hse hw hAgg
      (salaryToCreate_after_run s e w attDb salDb)]


/-- Sample attendance store used to witness claim C1: labourer
`labourer0001` has 3 present days (and one absence) in the period. -/
def c1Att : List AttendanceRec :=
  [⟨"att000000001", "labourer0001", "project00001", 1, "morning", "present",
    none⟩,
   ⟨"att000000002", "labourer0001", "project00001", 2, "morning", "present",
    none⟩,
   ⟨"att000000003", "labourer0001", "project00001", 3, "morning", "present",
    none⟩,
   ⟨"att000000004", "labourer0001", "project00001", 4, "morning", "absent",
    none⟩]

/-- Witness for claim C1 at the example of the spec: 3 present days at
dailyWage 100 give one pending record with totalDaysPresent 3 and
totalSalary 300, and a re-run reports already generated. -/
theorem generate_salary_once_witness :
    (0 : Int) ≤ 10 ∧ (0 : Int) ≤ 100 ∧
    0 < presentCount 0 10 c1Att "labourer0001" ∧
    ∃ resp newDb newRec,
      generateSalaryForPeriod (some (some 0)) (some (some 10)) (some 100)
        (fun _ => none) c1Att [] = (.ok resp, newDb) ∧
      resp.statusCode = 201 ∧
      (newDb.drop (List.length ([] : List SalaryRec))).filter
        (fun r => r.labourerId == "labourer0001") = [newRec] ∧
      newRec.labourerId = "labourer0001" ∧
      newRec.startPeriod = 0 ∧
      newRec.endPeriod = 10 ∧
      newRec.totalDaysPresent
        = (presentCount 0 10 c1Att "labourer0001" : Int) ∧
      newRec.dailyWage = 100 ∧
      newRec.totalSalary
        = (presentCount 0 10 c1Att "labourer0001" : Int) * 100 ∧
      newRec.status = "pending" ∧
      newRec.payslipUrl = "" ∧
      generateSalaryForPeriod (some (some 0)) (some (some 10)) (some 100)
        (fun _ => none) c1Att newDb
        = (.ok ⟨200,
            "Salary records for this period already generated for all labourers.",
            []⟩, newDb) :=
  ⟨by decide, by decide, by decide,
   generate_salary_once 0 10 100 c1Att [] "labourer0001" (by decide)
     (by decide) (by decide) (by simp)⟩


/-- Sample attendance store used for claim C2: two labourers, each with
one present day in the period. -/
def c2Att : List AttendanceRec :=
  [⟨"att000000001", "labourer0001", "project00001", 5, "morning", "present",
    none⟩,
   ⟨"att000000002", "labourer0002", "project00001", 6, "morning", "present",
    none⟩]

/-- Insert oracle for claim C2 that rejects the first labourer's record. -/
def c2InsertOk (r : SalaryRec) : Option String :=
  if r.labourerId == "labourer0001" then some "duplicate key error"
  else none

/-- Counterexample to claim C2 as stated: with two salary records in the
batch and the first insert failing, the whole call aborts with a 500-class
error and the second labourer's record is NOT committed (the final store
is empty), and no per-record failure report is returned — the batch does
not have partial-success semantics. -/
theorem salary_insert_not_partial_counterexample :
    generateSalaryForPeriod (some (some 0)) (some (some 10)) (some 100)
        c2InsertOk c2Att []
      = (.error ⟨500, "duplicate key error"⟩, []) ∧
    0 < presentCount 0 10 c2Att "labourer0002" :=
  ⟨rfl, by decide⟩

/-- The committed prefix of the ordered batch insert is the run of
accepted documents before the first failure. -/
theorem insertManyOrdered_fst_takeWhile
    (insertOk : SalaryRec → Option String) :
    ∀ l : List SalaryRec,
      (insertManyOrdered insertOk l).1
        = l.takeWhile (fun r => insertOk r == none)
  | [] => rfl
  | r :: rs => by
    unfold insertManyOrdered
    cases hr : insertOk r with
    | none =>
      simp [List.takeWhile_cons, hr,
        insertManyOrdered_fst_takeWhile insertOk rs]
    | some msg => simp [List.takeWhile_cons, hr]

/-- Claim C2 amended: in salary generation the synthesized records are
inserted with a single batch insert in its default ordered mode: when
inserting one record fails, the records before it in the batch remain
committed, the records after it are not inserted, and the call fails with
a 500-class error carrying the insert error message; per-record failures
are not collected into the response. -/
theorem salary_insert_ordered_abort (s e w : Int)
    (insertOk : SalaryRec → Option String) (attDb : List AttendanceRec)
    (salDb : List SalaryRec) (msg : String) (pre : List SalaryRec)
    (hse : s ≤ e) (hw : 0 ≤ w)
    (hins : insertManyOrdered insertOk (salaryToCreate s e w attDb salDb)
      = (pre, some msg)) :
    generateSalaryForPeriod (some (some s)) (some (some e)) (some w)
        insertOk attDb salDb
      = (.error ⟨500, msg⟩, salDb ++ pre) ∧
    pre = (salaryToCreate s e w attDb salDb).takeWhile
      (fun r => insertOk r == none) := by
  have hTc : (salaryToCreate s e w attDb salDb).isEmpty = false := by
    cases hE : (salaryToCreate s e w attDb salDb).isEmpty
    · rfl
    · rw [List.isEmpty_iff] at hE
      rw [hE] at hins
      exact absurd (congrArg Prod.snd hins) (by simp [insertManyOrdered])
  have hAgg : (attendanceAggregation s e attDb).isEmpty = false := by
    cases hE : (attendanceAggregation s e attDb).isEmpty
    · rfl
    · rw [List.isEmpty_iff] at hE
      have hTc0 : salaryToCreate s e w attDb salDb = [] := by
        rw [salaryToCreate_def, hE]
        rfl
      rw [hTc0] at hins
      exact absurd (congrArg Prod.snd hins) (by simp [insertManyOrdered])
  constructor
  · rw [generateSalaryForPeriod_success s e w insertOk attDb salDb hse hw
      hAgg hTc, hins]
  · rw [← insertManyOrdered_fst_takeWhile insertOk
      (salaryToCreate s e w attDb salDb), hins]

/-- Witness for the amended claim C2 at the concrete two-labourer batch of
the counterexample. -/
theorem salary_insert_ordered_abort_witness :
    insertManyOrdered c2InsertOk (salaryToCreate 0 10 100 c2Att [])
      = ([], some "duplicate key error") ∧
    (generateSalaryForPeriod (some (some 0)) (some (some 10)) (some 100)
        c2InsertOk c2Att []
      = (.error ⟨500, "duplicate key error"⟩, [] ++ ([] : List SalaryRec)) ∧
    ([] : List SalaryRec) = (salaryToCreate 0 10 100 c2Att []).takeWhile
      (fun r => c2InsertOk r == none)) :=
  ⟨rfl, salary_insert_ordered_abort 0 10 100 c2InsertOk c2Att [] _ _
    (by decide) (by decide) rfl⟩


end LMS
